import Mathlib

/-!
# simple_cam: a capture loop over a camera library

A shallow embedding of `src/simple_cam.cpp`: the completion handler
`requestComplete` and the script `main`.

* The camera library is external.  Its answers are read from a `Library`
  record; every call the program makes on a library object is appended to
  `World.trace`, arguments included.
* `std::cout` and `std::cerr` are `OStream` values: the text written so far
  together with the two pieces of formatting state the program touches,
  the field width (cleared by every formatted insertion) and the fill
  character (sticky).
* `unsigned int` is 32 bits wide and `size_t` is wider, as on the LP64
  platforms the library targets; the plane counter wraps modulo `2 ^ 32`.
* Dereferencing a null pointer or indexing an empty configuration is
  undefined behaviour: the embedded function then has no result (`none`).
* The trace of `main` holds the calls made by `main` itself.  The calls the
  handler makes, from the library's dispatch during the capture window,
  are those of `requestComplete`.
* Traced are the calls that act on the library.  Constructors, the implicit
  destructors at a `return`, and the accessors `id`, `at`, `toString`,
  `stream` and `buffers` leave no entry; the write to the size of entry 0
  of the configuration is traced as `Call.setSize`.
-/

namespace SimpleCam

/-! ## Data model -/

/-- Handle of a stream (`Stream *`). -/
abbrev Stream := Nat

/-- One plane of a frame's metadata (`FrameMetadata::Plane`). -/
structure Plane where
  bytesused : Nat
deriving DecidableEq, Repr

/-- Metadata of a captured frame (`FrameMetadata`): the fields the handler reads. -/
structure FrameMetadata where
  sequence : Nat
  planes : List Plane
deriving DecidableEq, Repr

/-- Frame buffer: its address (what a `FrameBuffer *` compares by) and its metadata. -/
structure FrameBuffer where
  addr : Nat
  metadata : FrameMetadata
deriving DecidableEq, Repr

/-- Completion status of a request (`Request::Status`). -/
inductive Status where
  | RequestPending
  | RequestComplete
  | RequestCancelled
deriving DecidableEq, Repr

/-- Flags of `Request::reuse` (`Request::ReuseFlag`). -/
inductive ReuseFlag where
  | Default
  | ReuseBuffers
deriving DecidableEq, Repr

/-- Request as the handler sees it: its address, `status()` and `buffers()`,
the latter listed in the iteration order of the `std::map`. -/
structure Request where
  addr : Nat
  status : Status
  buffers : List (Stream × FrameBuffer)
deriving DecidableEq, Repr

/-- Camera object, identified by its id string. -/
structure Camera where
  id : String
deriving DecidableEq, Repr

/-- Roles a configuration can be generated for (`StreamRole`). -/
inductive StreamRole where
  | Raw
  | StillCapture
  | VideoRecording
  | Viewfinder
deriving DecidableEq, Repr

/-- Stream configuration (`StreamConfiguration`): the requested size, the
pixel format (only ever passed through to `toString`) and the stream
`stream()` answers with. -/
structure StreamConfiguration where
  width : Nat
  height : Nat
  pixelFormat : String
  stream : Stream
deriving DecidableEq, Repr

/-- Result of `CameraConfiguration::validate` (`CameraConfiguration::Status`). -/
inductive ConfigStatus where
  | Valid
  | Adjusted
  | Invalid
deriving DecidableEq, Repr

/-- Calls on library objects, with their arguments.  `acquire` belongs to
the camera interface like the others. -/
inductive Call where
  | managerStart
  | cameras
  | get (id : String)
  | acquire (camera : Camera)
  | generateConfiguration (camera : Camera) (roles : List StreamRole)
  | setSize (index width height : Nat)
  | validate
  | configure (camera : Camera)
  | allocate (stream : Stream)
  | createRequest (camera : Camera)
  | addBuffer (request : Nat) (stream : Stream) (buffer : Nat)
  | connect (camera : Camera)
  | start (camera : Camera)
  | queueRequest (camera : Camera) (request : Nat)
  | reuse (request : Nat) (flags : ReuseFlag)
  | sleep (ms : Nat)
  | stop (camera : Camera)
  | free (stream : Stream)
  | release (camera : Camera)
  | managerStop
deriving DecidableEq, Repr

/-- Answers of the camera library.  `createRequest k` answers the call that
comes after `k` earlier ones (`none` is the null pointer).  `validate` and
`configure` may rewrite the configuration but keep its entry 0, to which the
program holds a reference.  An empty `generateConfiguration` stands for a
null or empty configuration. -/
structure Library where
  cameras : List Camera
  generateConfiguration : Camera → List StreamRole → List StreamConfiguration
  toString : StreamConfiguration → String
  validate : StreamConfiguration → List StreamConfiguration →
    ConfigStatus × StreamConfiguration × List StreamConfiguration
  configure : Camera → StreamConfiguration → List StreamConfiguration →
    Int × StreamConfiguration × List StreamConfiguration
  allocate : Stream → Int
  buffers : Stream → List FrameBuffer
  createRequest : Nat → Option Nat
  addBuffer : Nat → Stream → Nat → Int
  start : Camera → Int
  queueRequest : Camera → Nat → Int
  stop : Camera → Int
  release : Camera → Int

/-! ## Output streams -/

/-- State of a `std::ostream`: text written, pending field width, fill character. -/
structure OStream where
  text : String
  width : Nat
  fill : Char
deriving DecidableEq, Repr

/-- The manipulator `std::setw(n)`. -/
def OStream.setw (os : OStream) (n : Nat) : OStream :=
  { os with width := n }

/-- The manipulator `std::setfill(c)`. -/
def OStream.setfill (os : OStream) (c : Char) : OStream :=
  { os with fill := c }

/-- Formatted insertion of a character sequence: padded on the left with the
fill character up to the pending width (the default adjustment), never
truncated; the width is then cleared. -/
def OStream.insert (os : OStream) (s : String) : OStream :=
  { os with
    text := os.text ++ String.mk (List.replicate (os.width - s.length) os.fill) ++ s
    width := 0 }

/-- Formatted insertion of an unsigned integer, in decimal. -/
def OStream.insertUnsigned (os : OStream) (n : Nat) : OStream :=
  os.insert (Nat.repr n)

/-- The manipulator `std::endl`: an unformatted newline (and a flush). -/
def OStream.endl (os : OStream) : OStream :=
  { os with text := os.text ++ "\n" }

/-! ## Program state -/

/-- State the program acts on: the global `camera`, the two output streams,
the calls made so far, and the number of `createRequest` calls answered. -/
structure World where
  camera : Option Camera
  cout : OStream
  cerr : OStream
  trace : List Call
  created : Nat
deriving DecidableEq, Repr

/-- Append a call to the trace. -/
def World.record (w : World) (c : Call) : World :=
  { w with trace := w.trace ++ [c] }

/-- State at process start. -/
def World.init : World :=
  { camera := none
    cout := { text := "", width := 0, fill := ' ' }
    cerr := { text := "", width := 0, fill := ' ' }
    trace := []
    created := 0 }

/-! ## Library calls -/

/-- The call `Request::reuse(flags)`. -/
def Request.reuse (request : Nat) (flags : ReuseFlag) (w : World) : World :=
  w.record (Call.reuse request flags)

/-- The call `Camera::queueRequest(request)`. -/
def Camera.queueRequest (lib : Library) (camera : Camera) (request : Nat) (w : World) :
    Int × World :=
  (lib.queueRequest camera request, w.record (Call.queueRequest camera request))

/-! ## The completion handler -/

/-- Number of values of `unsigned int`. -/
def UINT_RANGE : Nat := 2 ^ 32

/-- Lines 29-35: the loop over `metadata.planes()`; `size` is
`metadata.planes().size()` and `nplane` the `unsigned int` counter. -/
def printPlanes (size : Nat) : List Plane → Nat → OStream → OStream
  | [], _, os => os
  | plane :: rest, nplane, os =>
    let os := os.insertUnsigned plane.bytesused
    let nplane := (nplane + 1) % UINT_RANGE
    let os := if nplane < size then os.insert "/" else os
    printPlanes size rest nplane os

/-- Lines 23-37: the body of the loop over the request's buffers. -/
def printBuffer (buffer : FrameBuffer) (os : OStream) : OStream :=
  let metadata := buffer.metadata
  let os := os.insert " seq: "
  let os := os.setw 6
  let os := os.setfill '0'
  let os := os.insertUnsigned metadata.sequence
  let os := os.insert " bytesused: "
  let os := printPlanes metadata.planes.length metadata.planes 0 os
  os.endl

/-- Lines 22-38: the loop over `request->buffers()`. -/
def printBuffers : List (Stream × FrameBuffer) → OStream → OStream
  | [], os => os
  | bufferPair :: rest, os => printBuffers rest (printBuffer bufferPair.2 os)

/-- Lines 15-42: `requestComplete`. -/
def requestComplete (lib : Library) (request : Request) (w : World) : Option World :=
  if request.status = Status.RequestCancelled then
    some w
  else
    let buffers := request.buffers
    let w := { w with cout := printBuffers buffers w.cout }
    let w := Request.reuse request.addr ReuseFlag.ReuseBuffers w
    match w.camera with
    | none => none
    | some camera =>
      let (_, w) := Camera.queueRequest lib camera request.addr w
      some w

/-! ## Library calls made by `main` -/

/-- Modelled from the spec: `EXIT_FAILURE` of `<cstdlib>`, absent from the
repository; a non-zero status, 1 on the platforms of the library. -/
def EXIT_FAILURE : Int := 1

/-- Modelled from the spec: `ENOMEM` of `<cerrno>`, absent from the repository;
a positive error number, 12 on the platforms of the library. -/
def ENOMEM : Int := 12

/-- The call `CameraManager::start()`. -/
def CameraManager.start (w : World) : World :=
  w.record Call.managerStart

/-- The call `CameraManager::stop()`. -/
def CameraManager.stop (w : World) : World :=
  w.record Call.managerStop

/-- The call `CameraManager::cameras()`. -/
def CameraManager.cameras (lib : Library) (w : World) : List Camera × World :=
  (lib.cameras, w.record Call.cameras)

/-- The call `CameraManager::get(id)`: the enumerated camera with that id,
null when there is none. -/
def CameraManager.get (lib : Library) (id : String) (w : World) : Option Camera × World :=
  (lib.cameras.find? (fun c => c.id == id), w.record (Call.get id))

/-- The call `Camera::generateConfiguration(roles)`. -/
def Camera.generateConfiguration (lib : Library) (camera : Camera) (roles : List StreamRole)
    (w : World) : List StreamConfiguration × World :=
  (lib.generateConfiguration camera roles, w.record (Call.generateConfiguration camera roles))

/-- The call `CameraConfiguration::validate()`, on the configuration made of
entry 0 and the entries after it. -/
def CameraConfiguration.validate (lib : Library) (streamConfig : StreamConfiguration)
    (others : List StreamConfiguration) (w : World) :
    ConfigStatus × StreamConfiguration × List StreamConfiguration × World :=
  let r := lib.validate streamConfig others
  (r.1, r.2.1, r.2.2, w.record Call.validate)

/-- The call `Camera::configure(config)`. -/
def Camera.configure (lib : Library) (camera : Camera) (streamConfig : StreamConfiguration)
    (others : List StreamConfiguration) (w : World) :
    Int × StreamConfiguration × List StreamConfiguration × World :=
  let r := lib.configure camera streamConfig others
  (r.1, r.2.1, r.2.2, w.record (Call.configure camera))

/-- The call `FrameBufferAllocator::allocate(stream)`. -/
def FrameBufferAllocator.allocate (lib : Library) (stream : Stream) (w : World) : Int × World :=
  (lib.allocate stream, w.record (Call.allocate stream))

/-- The accessor `FrameBufferAllocator::buffers(stream)`. -/
def FrameBufferAllocator.buffers (lib : Library) (stream : Stream) : List FrameBuffer :=
  lib.buffers stream

/-- The call `FrameBufferAllocator::free(stream)`. -/
def FrameBufferAllocator.free (stream : Stream) (w : World) : World :=
  w.record (Call.free stream)

/-- The call `Camera::createRequest()`. -/
def Camera.createRequest (lib : Library) (camera : Camera) (w : World) : Option Nat × World :=
  (lib.createRequest w.created,
    { w with trace := w.trace ++ [Call.createRequest camera], created := w.created + 1 })

/-- The call `Request::addBuffer(stream, buffer)`. -/
def Request.addBuffer (lib : Library) (request : Nat) (stream : Stream) (buffer : FrameBuffer)
    (w : World) : Int × World :=
  (lib.addBuffer request stream buffer.addr, w.record (Call.addBuffer request stream buffer.addr))

/-- The call `camera->requestCompleted.connect(requestComplete)`. -/
def Camera.connect (camera : Camera) (w : World) : World :=
  w.record (Call.connect camera)

/-- The call `Camera::start()`. -/
def Camera.start (lib : Library) (camera : Camera) (w : World) : Int × World :=
  (lib.start camera, w.record (Call.start camera))

/-- The call `Camera::stop()`. -/
def Camera.stop (lib : Library) (camera : Camera) (w : World) : Int × World :=
  (lib.stop camera, w.record (Call.stop camera))

/-- The call `Camera::release()`. -/
def Camera.release (lib : Library) (camera : Camera) (w : World) : Int × World :=
  (lib.release camera, w.record (Call.release camera))

/-- The call `std::this_thread::sleep_for`, in milliseconds. -/
def sleep_for (ms : Nat) (w : World) : World :=
  w.record (Call.sleep ms)

/-! ## The script -/

/-- Lines 82-92: allocate buffers for every entry of the configuration.
An `error` carries the value `main` returns. -/
def allocateAll (lib : Library) : List StreamConfiguration → World → Except (Int × World) World
  | [], w => Except.ok w
  | cfg :: rest, w =>
    let (ret, w) := FrameBufferAllocator.allocate lib cfg.stream w
    if ret < 0 then
      let w := { w with cerr := (w.cerr.insert "Can't allocate buffers").endl }
      Except.error (-ENOMEM, w)
    else
      let allocated := (FrameBufferAllocator.buffers lib cfg.stream).length
      let w := { w with cout :=
        (((w.cout.insert "Allocated ").insertUnsigned allocated).insert
          " buffers for stream").endl }
      allocateAll lib rest w

/-- Lines 99-113: one request per buffer, bound to it; `requests` is the
vector built so far.  An `error` carries the value `main` returns. -/
def createRequests (lib : Library) (camera : Camera) (stream : Stream) :
    List FrameBuffer → List Nat → World → Except (Int × World) (List Nat × World)
  | [], requests, w => Except.ok (requests, w)
  | buffer :: rest, requests, w =>
    let (request, w) := Camera.createRequest lib camera w
    match request with
    | none =>
      let w := { w with cerr := (w.cerr.insert "Can't create request").endl }
      Except.error (-ENOMEM, w)
    | some request =>
      let (ret, w) := Request.addBuffer lib request stream buffer w
      if ret < 0 then
        let w := { w with cerr := (w.cerr.insert "Can't set buffer for request").endl }
        Except.error (ret, w)
      else
        createRequests lib camera stream rest (requests ++ [request]) w

/-- Lines 118-120: queue every request. -/
def queueAll (lib : Library) (camera : Camera) : List Nat → World → World
  | [], w => w
  | request :: rest, w =>
    let (_, w) := Camera.queueRequest lib camera request w
    queueAll lib camera rest w

/-- Lines 44-132: `main`, from the state at process start, with the value it
returns.  `Call.setSize 0 640 480` stands for the two assignments of lines
69-70. -/
def main (lib : Library) : Option (Int × World) :=
  let w := World.init
  let w := CameraManager.start w
  let (cams, w) := CameraManager.cameras lib w
  if cams.isEmpty then
    let w := { w with cout := (w.cout.insert "No cameras were identified on the system.").endl }
    let w := CameraManager.stop w
    some (EXIT_FAILURE, w)
  else
    let (cams, w) := CameraManager.cameras lib w
    match cams with
    | [] => none
    | first :: _ =>
      let cameraId := first.id
      let (found, w) := CameraManager.get lib cameraId w
      let w := { w with camera := found }
      match w.camera with
      | none => none
      | some camera =>
        let (config, w) := Camera.generateConfiguration lib camera [StreamRole.Viewfinder] w
        match config with
        | [] => none
        | streamConfig :: others =>
          let w := { w with cout :=
            ((w.cout.insert "Default viewfinder configuration is: ").insert
              (lib.toString streamConfig)).endl }
          let streamConfig := { streamConfig with width := 640, height := 480 }
          let w := w.record (Call.setSize 0 640 480)
          let (_, streamConfig, others, w) := CameraConfiguration.validate lib streamConfig others w
          let w := { w with cout :=
            ((w.cout.insert "Validated viewfinder configuration is: ").insert
              (lib.toString streamConfig)).endl }
          let (_, streamConfig, others, w) := Camera.configure lib camera streamConfig others w
          match allocateAll lib (streamConfig :: others) w with
          | Except.error (ret, w) => some (ret, w)
          | Except.ok w =>
            let stream := streamConfig.stream
            let buffers := FrameBufferAllocator.buffers lib stream
            match createRequests lib camera stream buffers [] w with
            | Except.error (ret, w) => some (ret, w)
            | Except.ok (requests, w) =>
              let w := Camera.connect camera w
              let (_, w) := Camera.start lib camera w
              let w := queueAll lib camera requests w
              let w := sleep_for 3000 w
              let (_, w) := Camera.stop lib camera w
              let w := FrameBufferAllocator.free stream w
              let (_, w) := Camera.release lib camera w
              let w := { w with camera := none }
              let w := CameraManager.stop w
              some (0, w)

/-! ## Descriptions used in the statements -/

/-- The newline character. -/
def newline : Char := Char.ofNat 10

/-- Stream with nothing written and no pending width. -/
def OStream.blank : OStream :=
  { text := "", width := 0, fill := ' ' }

/-- Text the handler writes for one buffer: what `printBuffer` appends to a
stream that has no pending width. -/
def bufferLine (buffer : FrameBuffer) : String :=
  (printBuffer buffer OStream.blank).text

/-- Text the loop over the planes appends to a stream with no pending width. -/
def planesText (size : Nat) (planes : List Plane) (nplane : Nat) : String :=
  (printPlanes size planes nplane OStream.blank).text

/-- Stated from the specification: digits left-padded with the character
0 to a minimum width, and left as they are, never truncated, when they
already fill the width. -/
def zeroPadded (width : Nat) (digits : String) : String :=
  if digits.length < width then
    String.mk (List.replicate (width - digits.length) '0') ++ digits
  else digits

/-- What follows a byte count once `written` counts are out, for metadata of
`size` planes: a slash while `written`, counted in 32 bits, is below `size`. -/
def slashAfter (size written : Nat) : String :=
  if written % 2 ^ 32 < size then "/" else ""

/-- The line reporting a frame's metadata: its sequence number in decimal,
zero-padded to width 6, then the byte count of every plane in decimal, in
the order of the planes, each followed by what `slashAfter` says, then a
newline. -/
def reportLine (metadata : FrameMetadata) : String :=
  " seq: " ++ zeroPadded 6 (Nat.repr metadata.sequence) ++ " bytesused: " ++
    String.join (metadata.planes.enum.map (fun ip =>
      Nat.repr ip.2.bytesused ++ slashAfter metadata.planes.length (ip.1 + 1))) ++ "\n"

/-- The camera `main` selects, with entry 0 and the later entries of the
configuration it allocates for: the answers of the library along lines
48-76.  It is `none` when there is no camera or no configuration entry. -/
def Library.setup (lib : Library) : Option (Camera × StreamConfiguration × List StreamConfiguration) :=
  match lib.cameras with
  | [] => none
  | first :: _ =>
    match lib.generateConfiguration first [StreamRole.Viewfinder] with
    | [] => none
    | streamConfig :: others =>
      let validated := lib.validate { streamConfig with width := 640, height := 480 } others
      let configured := lib.configure first validated.2.1 validated.2.2
      some (first, configured.2.1, configured.2.2)

/-- Calls of lines 46-76, up to and including `configure`. -/
def prologue (camera : Camera) : List Call :=
  [Call.managerStart, Call.cameras, Call.cameras, Call.get camera.id,
    Call.generateConfiguration camera [StreamRole.Viewfinder], Call.setSize 0 640 480,
    Call.validate, Call.configure camera]

/-- One `allocate` call per configuration entry, in order. -/
def allocations (configs : List StreamConfiguration) : List Call :=
  configs.map (fun cfg => Call.allocate cfg.stream)

/-- For each request and the buffer at the same position, the call creating
the request and the call binding the buffer to it. -/
def bindings (camera : Camera) (stream : Stream) (requests : List Nat)
    (buffers : List FrameBuffer) : List Call :=
  (List.zipWith (fun r b => [Call.createRequest camera, Call.addBuffer r stream b.addr])
    requests buffers).flatten

/-- Calls of lines 122-129, from the sleep to the manager's stop. -/
def epilogue (camera : Camera) (stream : Stream) : List Call :=
  [Call.sleep 3000, Call.stop camera, Call.free stream, Call.release camera, Call.managerStop]

/-- The `k`-th request created after `base` earlier ones is `requests[k]`, and
binding the `k`-th buffer to it succeeded. -/
def Library.Bound (lib : Library) (stream : Stream) (base : Nat) (requests : List Nat)
    (buffers : List FrameBuffer) : Prop :=
  ∀ (i : Nat) (r : Nat) (b : FrameBuffer), requests[i]? = some r → buffers[i]? = some b →
    lib.createRequest (base + i) = some r ∧ 0 ≤ lib.addBuffer r stream b.addr

/-- No `Camera::start` and no `queueRequest` call in a trace. -/
def Quiet (trace : List Call) : Prop :=
  (∀ camera, Call.start camera ∉ trace) ∧ ∀ camera request, Call.queueRequest camera request ∉ trace

/-- Calls that precede the connection of the handler: the manager's start,
enumeration and lookup, configuration, allocation, request creation and
buffer binding. -/
def Call.isSetup : Call → Bool
  | Call.managerStart => true
  | Call.cameras => true
  | Call.get _ => true
  | Call.generateConfiguration _ _ => true
  | Call.setSize _ _ _ => true
  | Call.validate => true
  | Call.configure _ => true
  | Call.allocate _ => true
  | Call.createRequest _ => true
  | Call.addBuffer _ _ _ => true
  | _ => false

/-- The requests queued in a trace, in order. -/
def queued (trace : List Call) : List Nat :=
  trace.filterMap (fun c => match c with
    | Call.queueRequest _ r => some r
    | _ => none)

/-- The `addBuffer` calls of a trace, in order: request, stream, buffer. -/
def bound (trace : List Call) : List (Nat × Stream × Nat) :=
  trace.filterMap (fun c => match c with
    | Call.addBuffer r s b => some (r, s, b)
    | _ => none)

/-- The same library with other results for the calls whose result the
program discards: the status of `validate` and the return values of
`configure`, `start`, `queueRequest`, `stop` and `release`. -/
def Library.answering (lib : Library)
    (validate : StreamConfiguration → List StreamConfiguration → ConfigStatus)
    (configure : Camera → StreamConfiguration → List StreamConfiguration → Int)
    (start : Camera → Int) (queueRequest : Camera → Nat → Int) (stop : Camera → Int)
    (release : Camera → Int) : Library :=
  { lib with
    validate := fun c o => (validate c o, (lib.validate c o).2)
    configure := fun camera c o => (configure camera c o, (lib.configure camera c o).2)
    start := start
    queueRequest := queueRequest
    stop := stop
    release := release }

/-! ## Concrete inputs -/

/-- A library with one camera and two buffers on its stream, every call succeeding. -/
def demoLibrary : Library :=
  { cameras := [{ id := "cam0" }]
    generateConfiguration := fun _ _ =>
      [{ width := 1920, height := 1080, pixelFormat := "NV12", stream := 0 }]
    toString := fun c => Nat.repr c.width ++ "x" ++ Nat.repr c.height ++ "-" ++ c.pixelFormat
    validate := fun c o => (ConfigStatus.Valid, c, o)
    configure := fun _ c o => (0, { c with stream := 7 }, o)
    allocate := fun _ => 2
    buffers := fun s =>
      if s = 7 then
        [{ addr := 100, metadata := { sequence := 0, planes := [] } },
         { addr := 200, metadata := { sequence := 0, planes := [] } }]
      else []
    createRequest := fun k => some (10 + k)
    addBuffer := fun _ _ _ => 0
    start := fun _ => 0
    queueRequest := fun _ _ => 0
    stop := fun _ => 0
    release := fun _ => 0 }

/-- The state in which the library runs the handler: the global camera set,
nothing pending on the streams. -/
def demoWorld : World :=
  { World.init with camera := some { id := "cam0" } }

/-- A completed request with a three-plane buffer and a buffer without planes. -/
def demoRequest : Request :=
  { addr := 10
    status := Status.RequestComplete
    buffers :=
      [(7, { addr := 100, metadata :=
          { sequence := 42, planes := [{ bytesused := 10 }, { bytesused := 20 },
              { bytesused := 30 }] } }),
       (8, { addr := 200, metadata := { sequence := 1234567, planes := [] } })] }

/-- A cancelled request. -/
def cancelledRequest : Request :=
  { demoRequest with status := Status.RequestCancelled }

/-- The camera of `demoLibrary`. -/
def demoCamera : Camera :=
  { id := "cam0" }

/-- The configuration entry `main` allocates for with `demoLibrary`. -/
def demoConfig : StreamConfiguration :=
  { width := 640, height := 480, pixelFormat := "NV12", stream := 7 }

/-- The second buffer of `demoLibrary` on stream 7. -/
def demoSecondBuffer : FrameBuffer :=
  { addr := 200, metadata := { sequence := 0, planes := [] } }

/-- A library without cameras. -/
def noCameraLibrary : Library :=
  { demoLibrary with cameras := [] }

/-- A library with a camera for which `generateConfiguration` answers no
configuration entry; every `allocate`, `createRequest` and `addBuffer`
would succeed. -/
def noConfigurationLibrary : Library :=
  { demoLibrary with generateConfiguration := fun _ _ => [] }

/-- A library whose `allocate` fails. -/
def allocateFailLibrary : Library :=
  { demoLibrary with allocate := fun _ => -1 }

/-- A library whose second `createRequest` answers null. -/
def nullRequestLibrary : Library :=
  { demoLibrary with createRequest := fun k => if k = 1 then none else some (10 + k) }

/-- A library whose `addBuffer` fails with -22 on the second request. -/
def addBufferFailLibrary : Library :=
  { demoLibrary with addBuffer := fun r _ _ => if r = 11 then -22 else 0 }

/-- The state in which `main` returns with `demoLibrary`. -/
def demoRun : World :=
  { camera := none
    cout :=
      { text := "Default viewfinder configuration is: 1920x1080-NV12\n" ++
          "Validated viewfinder configuration is: 640x480-NV12\n" ++
          "Allocated 2 buffers for stream\n"
        width := 0
        fill := ' ' }
    cerr := { text := "", width := 0, fill := ' ' }
    trace :=
      [Call.managerStart, Call.cameras, Call.cameras, Call.get "cam0",
        Call.generateConfiguration demoCamera [StreamRole.Viewfinder], Call.setSize 0 640 480,
        Call.validate, Call.configure demoCamera, Call.allocate 7,
        Call.createRequest demoCamera, Call.addBuffer 10 7 100,
        Call.createRequest demoCamera, Call.addBuffer 11 7 200,
        Call.connect demoCamera, Call.start demoCamera,
        Call.queueRequest demoCamera 10, Call.queueRequest demoCamera 11,
        Call.sleep 3000, Call.stop demoCamera, Call.free 7, Call.release demoCamera,
        Call.managerStop]
    created := 2 }

/-- The state in which `main` returns with `nullRequestLibrary`. -/
def nullRequestRun : World :=
  { camera := some demoCamera
    cout := demoRun.cout
    cerr := { text := "Can't create request\n", width := 0, fill := ' ' }
    trace :=
      [Call.managerStart, Call.cameras, Call.cameras, Call.get "cam0",
        Call.generateConfiguration demoCamera [StreamRole.Viewfinder], Call.setSize 0 640 480,
        Call.validate, Call.configure demoCamera, Call.allocate 7,
        Call.createRequest demoCamera, Call.addBuffer 10 7 100,
        Call.createRequest demoCamera]
    created := 2 }

/-! ## Output streams: basic facts -/

theorem OStream.endl_text (os : OStream) : os.endl.text = os.text ++ "\n" := rfl

theorem OStream.endl_width (os : OStream) : os.endl.width = os.width := rfl

/-! ## The handler's output -/

/-- Text inserted after one plane's byte count: a slash unless the wrapped
counter has reached the number of planes. -/
theorem printPlanes_cons (size : Nat) (plane : Plane) (rest : List Plane) (nplane : Nat)
    (os : OStream) :
    printPlanes size (plane :: rest) nplane os =
      printPlanes size rest ((nplane + 1) % UINT_RANGE)
        (if (nplane + 1) % UINT_RANGE < size then
          (os.insertUnsigned plane.bytesused).insert "/"
        else os.insertUnsigned plane.bytesused) := rfl

theorem printPlanes_spec (size : Nat) (planes : List Plane) :
    ∀ (nplane : Nat) (os : OStream), os.width = 0 →
      (printPlanes size planes nplane os).text = os.text ++ planesText size planes nplane ∧
      (printPlanes size planes nplane os).width = 0 ∧
      (printPlanes size planes nplane os).fill = os.fill := by
  induction planes with
  | nil =>
    intro nplane os h
    simp [printPlanes, planesText, OStream.blank, h]
  | cons plane rest ih =>
    intro nplane os h
    rw [printPlanes_cons, planesText, printPlanes_cons]
    by_cases hc : (nplane + 1) % UINT_RANGE < size
    · simp only [hc, if_true]
      obtain ⟨h1, h2, h3⟩ := ih ((nplane + 1) % UINT_RANGE)
        ((os.insertUnsigned plane.bytesused).insert "/") rfl
      obtain ⟨b1, _, _⟩ := ih ((nplane + 1) % UINT_RANGE)
        ((OStream.blank.insertUnsigned plane.bytesused).insert "/") rfl
      refine ⟨?_, h2, by rw [h3]; rfl⟩
      rw [h1, b1]
      simp [OStream.insertUnsigned, OStream.insert, OStream.blank, h, String.append_assoc]
    · simp only [hc, if_false]
      obtain ⟨h1, h2, h3⟩ := ih ((nplane + 1) % UINT_RANGE)
        (os.insertUnsigned plane.bytesused) rfl
      obtain ⟨b1, _, _⟩ := ih ((nplane + 1) % UINT_RANGE)
        (OStream.blank.insertUnsigned plane.bytesused) rfl
      refine ⟨?_, h2, by rw [h3]; rfl⟩
      rw [h1, b1]
      simp [OStream.insertUnsigned, OStream.insert, OStream.blank, h, String.append_assoc]

theorem planesText_nil (size nplane : Nat) : planesText size [] nplane = "" := rfl

theorem planesText_cons (size : Nat) (plane : Plane) (rest : List Plane) (nplane : Nat) :
    planesText size (plane :: rest) nplane =
      Nat.repr plane.bytesused ++
        ((if (nplane + 1) % UINT_RANGE < size then "/" else "") ++
          planesText size rest ((nplane + 1) % UINT_RANGE)) := by
  rw [planesText, printPlanes_cons]
  by_cases hc : (nplane + 1) % UINT_RANGE < size
  · simp only [hc, if_true]
    rw [(printPlanes_spec size rest _ _ rfl).1]
    simp [OStream.insertUnsigned, OStream.insert, OStream.blank, String.append_assoc]
  · simp only [hc, if_false]
    rw [(printPlanes_spec size rest _ _ rfl).1]
    simp [OStream.insertUnsigned, OStream.insert, OStream.blank, String.append_assoc]

/-- Padding by the stream, with fill character 0, is the padding of the specification. -/
theorem zeroPadded_eq (width : Nat) (digits : String) :
    String.mk (List.replicate (width - digits.length) '0') ++ digits =
      zeroPadded width digits := by
  unfold zeroPadded
  split
  · rfl
  · rename_i h
    have h0 : width - digits.length = 0 := by omega
    rw [h0]
    apply String.ext
    simp

/-- The line written for a buffer, spelled out. -/
theorem bufferLine_eq (buffer : FrameBuffer) :
    bufferLine buffer =
      " seq: " ++ (zeroPadded 6 (Nat.repr buffer.metadata.sequence) ++ (" bytesused: " ++
        (planesText buffer.metadata.planes.length buffer.metadata.planes 0 ++ "\n"))) := by
  unfold bufferLine printBuffer
  simp only [OStream.endl_text]
  rw [(printPlanes_spec _ _ _ _ rfl).1, ← zeroPadded_eq]
  simp [OStream.insertUnsigned, OStream.insert, OStream.blank, OStream.setw, OStream.setfill,
    String.append_assoc]

theorem printBuffer_spec (buffer : FrameBuffer) (os : OStream) (h : os.width = 0) :
    (printBuffer buffer os).text = os.text ++ bufferLine buffer ∧
      (printBuffer buffer os).width = 0 := by
  rw [bufferLine_eq]
  unfold printBuffer
  simp only [OStream.endl_text, OStream.endl_width]
  obtain ⟨h1, h2, _⟩ := printPlanes_spec buffer.metadata.planes.length buffer.metadata.planes 0
    (((((os.insert " seq: ").setw 6).setfill '0').insertUnsigned
      buffer.metadata.sequence).insert " bytesused: ") rfl
  refine ⟨?_, h2⟩
  rw [h1, ← zeroPadded_eq]
  simp [OStream.insertUnsigned, OStream.insert, OStream.setw, OStream.setfill,
    String.append_assoc, h]

theorem printBuffers_spec (buffers : List (Stream × FrameBuffer)) :
    ∀ os : OStream, os.width = 0 →
      (printBuffers buffers os).text =
        os.text ++ String.join (buffers.map (fun p => bufferLine p.2)) ∧
      (printBuffers buffers os).width = 0 := by
  induction buffers with
  | nil => intro os h; simp [printBuffers, String.join, h]
  | cons p rest ih =>
    intro os h
    obtain ⟨h1, h2⟩ := printBuffer_spec p.2 os h
    obtain ⟨r1, r2⟩ := ih (printBuffer p.2 os) h2
    refine ⟨?_, by simpa [printBuffers] using r2⟩
    simp only [printBuffers, r1, h1]
    apply String.ext
    simp [String.data_join]

/-! ## Decimal digits and separators -/

theorem digitChar_ne_newline (n : Nat) (h : n < 10) : Nat.digitChar n ≠ newline := by
  interval_cases n <;> decide

theorem toDigitsCore_no_newline (fuel : Nat) :
    ∀ (n : Nat) (ds : List Char), newline ∉ ds → newline ∉ Nat.toDigitsCore 10 fuel n ds := by
  induction fuel with
  | zero => intro n ds h; simpa [Nat.toDigitsCore] using h
  | succ fuel ih =>
    intro n ds h
    have hd : newline ∉ Nat.digitChar (n % 10) :: ds := by
      intro hm
      rcases List.mem_cons.1 hm with h1 | h1
      · exact digitChar_ne_newline (n % 10) (Nat.mod_lt _ (by decide)) h1.symm
      · exact h h1
    rw [Nat.toDigitsCore]
    split
    · exact hd
    · exact ih _ _ hd

theorem repr_no_newline (n : Nat) : newline ∉ (Nat.repr n).data := by
  have h := toDigitsCore_no_newline (n + 1) n [] (by simp)
  simpa [Nat.repr, Nat.toDigits, List.asString] using h

theorem planesText_no_newline (size : Nat) (planes : List Plane) :
    ∀ nplane : Nat, newline ∉ (planesText size planes nplane).data := by
  induction planes with
  | nil => intro nplane; simp [planesText_nil]
  | cons plane rest ih =>
    intro nplane
    rw [planesText_cons]
    have h1 := repr_no_newline plane.bytesused
    have h2 := ih ((nplane + 1) % UINT_RANGE)
    by_cases hc : (nplane + 1) % UINT_RANGE < size
    · simp only [hc, if_true, String.data_append, List.mem_append, not_or]
      exact ⟨h1, by decide, h2⟩
    · simp only [hc, if_false, String.data_append, List.mem_append, not_or]
      exact ⟨h1, by decide, h2⟩

/-- Every line the handler writes is a body without newline followed by one newline. -/
theorem bufferLine_shape (buffer : FrameBuffer) :
    ∃ body : String, bufferLine buffer = body ++ "\n" ∧ newline ∉ body.data := by
  refine ⟨" seq: " ++ (zeroPadded 6 (Nat.repr buffer.metadata.sequence) ++ (" bytesused: " ++
    planesText buffer.metadata.planes.length buffer.metadata.planes 0)), ?_, ?_⟩
  · rw [bufferLine_eq]; simp [String.append_assoc]
  · have h1 := repr_no_newline buffer.metadata.sequence
    have h2 := planesText_no_newline buffer.metadata.planes.length buffer.metadata.planes 0
    rw [← zeroPadded_eq]
    simp only [String.data_append, List.mem_append, not_or, List.mem_replicate]
    refine ⟨by decide, ⟨?_, h1⟩, by decide, h2⟩
    rintro ⟨_, h⟩
    exact absurd h (by decide)

theorem bufferLine_count (buffer : FrameBuffer) :
    (bufferLine buffer).data.count newline = 1 := by
  obtain ⟨body, h1, h2⟩ := bufferLine_shape buffer
  rw [h1, String.data_append, List.count_append, List.count_eq_zero_of_not_mem h2]
  decide

theorem join_bufferLine_count (buffers : List (Stream × FrameBuffer)) :
    (String.join (buffers.map (fun p => bufferLine p.2))).data.count newline =
      buffers.length := by
  induction buffers with
  | nil => simp [String.join]
  | cons p rest ih =>
    rw [String.data_join] at ih
    simp only [String.data_join, List.map_cons, List.flatten_cons, List.count_append,
      List.length_cons, bufferLine_count, ih]
    omega

/-- The loop over the planes writes every byte count in order, each followed
by a slash while the 32-bit count of those written is below the size. -/
theorem planesText_enum (size : Nat) (planes : List Plane) :
    ∀ nplane k : Nat, nplane % UINT_RANGE = k % UINT_RANGE →
      planesText size planes nplane =
        String.join ((planes.enumFrom k).map (fun ip =>
          Nat.repr ip.2.bytesused ++ slashAfter size (ip.1 + 1))) := by
  induction planes with
  | nil => intro nplane k _; rfl
  | cons plane rest ih =>
    intro nplane k h
    have hk : (nplane + 1) % UINT_RANGE = (k + 1) % UINT_RANGE := by
      rw [Nat.add_mod, h, ← Nat.add_mod]
    rw [planesText_cons, ih ((nplane + 1) % UINT_RANGE) (k + 1) (by rw [Nat.mod_mod, hk])]
    have hs : (if (nplane + 1) % UINT_RANGE < size then "/" else "") =
        slashAfter size (k + 1) := by
      unfold slashAfter
      rw [hk]
      rfl
    rw [hs]
    apply String.ext
    simp [String.data_join, List.enumFrom_cons]

/-- The line written for a buffer is the line reporting its metadata. -/
theorem bufferLine_report (buffer : FrameBuffer) :
    bufferLine buffer = reportLine buffer.metadata := by
  rw [bufferLine_eq, planesText_enum _ _ 0 0 rfl]
  simp [reportLine, List.enum, String.append_assoc]

theorem reportLine_shape (metadata : FrameMetadata) :
    ∃ body : String, reportLine metadata = body ++ "\n" ∧ newline ∉ body.data := by
  have h := bufferLine_shape { addr := 0, metadata := metadata }
  rwa [bufferLine_report] at h

theorem join_reportLine_count (buffers : List (Stream × FrameBuffer)) :
    (String.join (buffers.map (fun p => reportLine p.2.metadata))).data.count newline =
      buffers.length := by
  have h := join_bufferLine_count buffers
  have hmap : buffers.map (fun p => bufferLine p.2) =
      buffers.map (fun p => reportLine p.2.metadata) :=
    List.map_congr_left (fun p _ => bufferLine_report p.2)
  rwa [hmap] at h

theorem requestComplete_run (lib : Library) (request : Request) (w : World) (camera : Camera)
    (hs : request.status ≠ Status.RequestCancelled) (hc : w.camera = some camera) :
    requestComplete lib request w =
      some { w with
        cout := printBuffers request.buffers w.cout
        trace := w.trace ++ [Call.reuse request.addr ReuseFlag.ReuseBuffers,
          Call.queueRequest camera request.addr] } := by
  simp [requestComplete, hs, Request.reuse, World.record, Camera.queueRequest, hc]

/-- C1: for a request whose status is `RequestCancelled` the handler takes
no action: it returns with the state unchanged, so nothing is written to
standard output and neither `reuse` nor `queueRequest` is called. -/
theorem requestComplete_cancelled (lib : Library) (request : Request) (w : World)
    (h : request.status = Status.RequestCancelled) :
    requestComplete lib request w = some w := by
  simp [requestComplete, h]

theorem requestComplete_cancelled_witness :
    cancelledRequest.status = Status.RequestCancelled ∧
      requestComplete demoLibrary cancelledRequest demoWorld = some demoWorld :=
  ⟨rfl, requestComplete_cancelled demoLibrary cancelledRequest demoWorld rfl⟩

/-- C2: for a request that is not cancelled, whatever buffers it carries,
the handler returns and the calls it makes are exactly `reuse(ReuseBuffers)`
on the request followed by one `queueRequest` of that same request on the
global camera. -/
theorem requestComplete_requeues (lib : Library) (request : Request) (w : World)
    (camera : Camera) (hs : request.status ≠ Status.RequestCancelled)
    (hc : w.camera = some camera) :
    ∃ w' : World, requestComplete lib request w = some w' ∧
      w'.trace = w.trace ++ [Call.reuse request.addr ReuseFlag.ReuseBuffers,
        Call.queueRequest camera request.addr] ∧
      w'.camera = w.camera := by
  rw [requestComplete_run lib request w camera hs hc]
  exact ⟨_, rfl, rfl, rfl⟩

theorem requestComplete_requeues_witness :
    demoRequest.status ≠ Status.RequestCancelled ∧ demoWorld.camera = some { id := "cam0" } ∧
      ∃ w' : World, requestComplete demoLibrary demoRequest demoWorld = some w' ∧
        w'.trace = demoWorld.trace ++ [Call.reuse demoRequest.addr ReuseFlag.ReuseBuffers,
          Call.queueRequest { id := "cam0" } demoRequest.addr] ∧
        w'.camera = demoWorld.camera :=
  ⟨by decide, rfl,
    requestComplete_requeues demoLibrary demoRequest demoWorld { id := "cam0" } (by decide) rfl⟩

/-- C3: for a request that is not cancelled the handler appends to standard
output one line per buffer of the request, in the order of `buffers()`, the
k-th line being the line that reports the metadata of the k-th buffer: its
sequence number and the byte count of each of its planes.  Each line is a
body without newline followed by a newline, so the number of newlines
written is the number of buffers.  No field width is left pending on the
stream. -/
theorem requestComplete_one_line_per_buffer (lib : Library) (request : Request) (w : World)
    (camera : Camera) (hs : request.status ≠ Status.RequestCancelled)
    (hc : w.camera = some camera) (hw : w.cout.width = 0) :
    ∃ w' : World, requestComplete lib request w = some w' ∧
      w'.cout.text =
        w.cout.text ++ String.join (request.buffers.map (fun p => reportLine p.2.metadata)) ∧
      (∀ p ∈ request.buffers,
        ∃ body : String, reportLine p.2.metadata = body ++ "\n" ∧ newline ∉ body.data) ∧
      (String.join (request.buffers.map (fun p => reportLine p.2.metadata))).data.count
        newline = request.buffers.length ∧
      w'.cout.width = 0 := by
  rw [requestComplete_run lib request w camera hs hc]
  have hmap : request.buffers.map (fun p => reportLine p.2.metadata) =
      request.buffers.map (fun p => bufferLine p.2) :=
    List.map_congr_left (fun p _ => (bufferLine_report p.2).symm)
  refine ⟨_, rfl, ?_, fun p _ => reportLine_shape p.2.metadata,
    join_reportLine_count request.buffers,
    (printBuffers_spec request.buffers w.cout hw).2⟩
  rw [hmap]
  exact (printBuffers_spec request.buffers w.cout hw).1

theorem requestComplete_one_line_per_buffer_witness :
    demoRequest.status ≠ Status.RequestCancelled ∧ demoWorld.camera = some { id := "cam0" } ∧
      demoWorld.cout.width = 0 ∧
      String.join (demoRequest.buffers.map (fun p => reportLine p.2.metadata)) =
        " seq: 000042 bytesused: 10/20/30\n seq: 1234567 bytesused: \n" ∧
      ∃ w' : World, requestComplete demoLibrary demoRequest demoWorld = some w' ∧
        w'.cout.text =
          demoWorld.cout.text ++
            String.join (demoRequest.buffers.map (fun p => reportLine p.2.metadata)) ∧
        (∀ p ∈ demoRequest.buffers,
          ∃ body : String, reportLine p.2.metadata = body ++ "\n" ∧ newline ∉ body.data) ∧
        (String.join (demoRequest.buffers.map (fun p => reportLine p.2.metadata))).data.count
          newline = demoRequest.buffers.length ∧
        w'.cout.width = 0 :=
  ⟨by decide, rfl, rfl, by decide,
    requestComplete_one_line_per_buffer demoLibrary demoRequest demoWorld { id := "cam0" }
      (by decide) rfl rfl⟩

theorem allocateAll_spec (lib : Library) (configs : List StreamConfiguration) :
    ∀ w : World,
      (∃ w' : World, allocateAll lib configs w = Except.ok w' ∧
        (∀ cfg ∈ configs, 0 ≤ lib.allocate cfg.stream) ∧
        w'.trace = w.trace ++ allocations configs ∧
        w'.cerr = w.cerr ∧ w'.camera = w.camera ∧ w'.created = w.created) ∨
      (∃ (w' : World) (pre : List StreamConfiguration) (cfg : StreamConfiguration)
          (post : List StreamConfiguration),
        allocateAll lib configs w = Except.error (-ENOMEM, w') ∧
        configs = pre ++ cfg :: post ∧
        (∀ c ∈ pre, 0 ≤ lib.allocate c.stream) ∧ lib.allocate cfg.stream < 0 ∧
        w'.trace = w.trace ++ allocations (pre ++ [cfg]) ∧
        w'.cerr = (w.cerr.insert "Can't allocate buffers").endl) := by
  induction configs with
  | nil =>
    intro w
    left
    exact ⟨w, rfl, by simp, by simp [allocations], rfl, rfl, rfl⟩
  | cons cfg rest ih =>
    intro w
    by_cases hneg : lib.allocate cfg.stream < 0
    · right
      refine ⟨{ w.record (Call.allocate cfg.stream) with
          cerr := ((w.record (Call.allocate cfg.stream)).cerr.insert
            "Can't allocate buffers").endl }, [], cfg, rest, ?_, rfl, by simp, hneg, ?_, ?_⟩
      · simp only [allocateAll, FrameBufferAllocator.allocate, hneg, if_true]
      · simp [allocations, World.record]
      · rfl
    · have hstep : allocateAll lib (cfg :: rest) w =
          allocateAll lib rest
            { w.record (Call.allocate cfg.stream) with
              cout := (((((w.record (Call.allocate cfg.stream)).cout.insert
                "Allocated ").insertUnsigned
                  (FrameBufferAllocator.buffers lib cfg.stream).length).insert
                    " buffers for stream").endl) } := by
        simp only [allocateAll, FrameBufferAllocator.allocate, hneg, if_false]
      rw [hstep]
      rcases ih { w.record (Call.allocate cfg.stream) with
          cout := (((((w.record (Call.allocate cfg.stream)).cout.insert
            "Allocated ").insertUnsigned
              (FrameBufferAllocator.buffers lib cfg.stream).length).insert
                " buffers for stream").endl) } with
        ⟨w', h1, h2, h3, h4, h5, h6⟩ | ⟨w', pre, c, post, h1, h2, h3, h4, h5, h6⟩
      · left
        refine ⟨w', h1, ?_, ?_, h4, h5, h6⟩
        · intro c hc
          rcases List.mem_cons.1 hc with rfl | hc
          · exact not_lt.1 hneg
          · exact h2 c hc
        · rw [h3]; simp [allocations, World.record]
      · right
        refine ⟨w', cfg :: pre, c, post, h1, by rw [h2]; rfl, ?_, h4, ?_, h6⟩
        · intro c' hc
          rcases List.mem_cons.1 hc with rfl | hc
          · exact not_lt.1 hneg
          · exact h3 c' hc
        · rw [h5]; simp [allocations, World.record]

theorem Bound_nil (lib : Library) (stream : Stream) (base : Nat) (buffers : List FrameBuffer) :
    lib.Bound stream base [] buffers := by
  intro i r b h
  simp at h

theorem Bound_cons (lib : Library) (stream : Stream) (base : Nat) (r0 : Nat) (rs : List Nat)
    (b0 : FrameBuffer) (rest : List FrameBuffer)
    (h0 : lib.createRequest base = some r0) (h1 : 0 ≤ lib.addBuffer r0 stream b0.addr)
    (h : lib.Bound stream (base + 1) rs rest) :
    lib.Bound stream base (r0 :: rs) (b0 :: rest) := by
  intro i r b hr hb
  cases i with
  | zero =>
    simp at hr hb
    subst hr hb
    exact ⟨h0, h1⟩
  | succ i =>
    simp at hr hb
    have := h i r b hr hb
    rwa [show base + (i + 1) = base + 1 + i by omega]

theorem bindings_nil (camera : Camera) (stream : Stream) (buffers : List FrameBuffer) :
    bindings camera stream [] buffers = [] := by
  simp [bindings]

theorem bindings_cons (camera : Camera) (stream : Stream) (r0 : Nat) (rs : List Nat)
    (b0 : FrameBuffer) (rest : List FrameBuffer) :
    bindings camera stream (r0 :: rs) (b0 :: rest) =
      Call.createRequest camera :: Call.addBuffer r0 stream b0.addr ::
        bindings camera stream rs rest := by
  simp [bindings]

theorem createRequests_spec (lib : Library) (camera : Camera) (stream : Stream)
    (buffers : List FrameBuffer) :
    ∀ (requests : List Nat) (w : World),
      (∃ (rs : List Nat) (w' : World),
        createRequests lib camera stream buffers requests w = Except.ok (requests ++ rs, w') ∧
        rs.length = buffers.length ∧ lib.Bound stream w.created rs buffers ∧
        w'.trace = w.trace ++ bindings camera stream rs buffers ∧
        w'.cerr = w.cerr ∧ w'.camera = w.camera) ∨
      (∃ (v : Int) (w' : World) (j : Nat) (b : FrameBuffer) (rs : List Nat) (l : List Call),
        createRequests lib camera stream buffers requests w = Except.error (v, w') ∧
        buffers[j]? = some b ∧ rs.length = j ∧ lib.Bound stream w.created rs buffers ∧
        w'.trace = w.trace ++ bindings camera stream rs buffers ++ l ∧
        ((lib.createRequest (w.created + j) = none ∧ v = -ENOMEM ∧
            l = [Call.createRequest camera] ∧
            w'.cerr = (w.cerr.insert "Can't create request").endl) ∨
          (∃ r : Nat, lib.createRequest (w.created + j) = some r ∧
            lib.addBuffer r stream b.addr < 0 ∧ v = lib.addBuffer r stream b.addr ∧
            l = [Call.createRequest camera, Call.addBuffer r stream b.addr] ∧
            w'.cerr = (w.cerr.insert "Can't set buffer for request").endl))) := by
  induction buffers with
  | nil =>
    intro requests w
    left
    exact ⟨[], w, by simp [createRequests], rfl, Bound_nil _ _ _ _, by simp [bindings_nil],
      rfl, rfl⟩
  | cons b0 rest ih =>
    intro requests w
    cases hcr : lib.createRequest w.created with
    | none =>
      right
      refine ⟨-ENOMEM,
        { w with
          trace := w.trace ++ [Call.createRequest camera]
          created := w.created + 1
          cerr := (w.cerr.insert "Can't create request").endl },
        0, b0, [], [Call.createRequest camera], ?_, by simp, rfl, Bound_nil _ _ _ _, ?_, ?_⟩
      · simp [createRequests, Camera.createRequest, hcr]
      · simp [bindings_nil]
      · left
        exact ⟨by simpa using hcr, rfl, rfl, rfl⟩
    | some r0 =>
      by_cases hneg : lib.addBuffer r0 stream b0.addr < 0
      · right
        refine ⟨lib.addBuffer r0 stream b0.addr,
          { w with
            trace := w.trace ++ [Call.createRequest camera] ++
              [Call.addBuffer r0 stream b0.addr]
            created := w.created + 1
            cerr := (w.cerr.insert "Can't set buffer for request").endl },
          0, b0, [], [Call.createRequest camera, Call.addBuffer r0 stream b0.addr],
          ?_, by simp, rfl, Bound_nil _ _ _ _, ?_, ?_⟩
        · simp [createRequests, Camera.createRequest, hcr, Request.addBuffer, World.record, hneg]
        · simp [bindings_nil]
        · right
          exact ⟨r0, by simpa using hcr, hneg, rfl, rfl, rfl⟩
      · have hstep : createRequests lib camera stream (b0 :: rest) requests w =
            createRequests lib camera stream rest (requests ++ [r0])
              { w with
                trace := w.trace ++ [Call.createRequest camera] ++
                  [Call.addBuffer r0 stream b0.addr]
                created := w.created + 1 } := by
          simp [createRequests, Camera.createRequest, hcr, Request.addBuffer, World.record, hneg]
        rw [hstep]
        rcases ih (requests ++ [r0])
            { w with
              trace := w.trace ++ [Call.createRequest camera] ++
                [Call.addBuffer r0 stream b0.addr]
              created := w.created + 1 } with
          ⟨rs, w', h1, h2, h3, h4, h5, h6⟩ | ⟨v, w', j, b, rs, l, h1, h2, h3, h4, h5, h6⟩
        · left
          refine ⟨r0 :: rs, w', by rw [h1]; simp, by simp [h2],
            Bound_cons _ _ _ _ _ _ _ hcr (not_lt.1 hneg) h3, ?_, h5, h6⟩
          rw [h4, bindings_cons]; simp
        · right
          refine ⟨v, w', j + 1, b, r0 :: rs, l, h1, by simpa using h2, by simp [h3],
            Bound_cons _ _ _ _ _ _ _ hcr (not_lt.1 hneg) h4, ?_, ?_⟩
          · rw [h5, bindings_cons]; simp
          · rcases h6 with ⟨a1, a2, a3, a4⟩ | ⟨r, a1, a2, a3, a4, a5⟩
            · left
              refine ⟨?_, a2, a3, a4⟩
              rw [show w.created + (j + 1) = w.created + 1 + j by omega]
              exact a1
            · right
              refine ⟨r, ?_, a2, a3, a4, a5⟩
              rw [show w.created + (j + 1) = w.created + 1 + j by omega]
              exact a1

theorem queueAll_trace (lib : Library) (camera : Camera) (requests : List Nat) :
    ∀ w : World, queueAll lib camera requests w =
      { w with trace := w.trace ++ requests.map (fun r => Call.queueRequest camera r) } := by
  induction requests with
  | nil => intro w; simp [queueAll]
  | cons r rest ih =>
    intro w
    simp [queueAll, Camera.queueRequest, World.record, ih]

/-! ## The script, case by case -/

theorem setup_cases (lib : Library) (camera : Camera) (streamConfig : StreamConfiguration)
    (others : List StreamConfiguration) (h : lib.setup = some (camera, streamConfig, others)) :
    ∃ (more : List Camera) (sc0 : StreamConfiguration) (others0 : List StreamConfiguration),
      lib.cameras = camera :: more ∧
      lib.generateConfiguration camera [StreamRole.Viewfinder] = sc0 :: others0 ∧
      (lib.configure camera
        (lib.validate { sc0 with width := 640, height := 480 } others0).2.1
        (lib.validate { sc0 with width := 640, height := 480 } others0).2.2).2 =
          (streamConfig, others) := by
  unfold Library.setup at h
  cases hc : lib.cameras with
  | nil => simp [hc] at h
  | cons first more =>
    simp only [hc] at h
    cases hg : lib.generateConfiguration first [StreamRole.Viewfinder] with
    | nil => simp [hg] at h
    | cons sc0 others0 =>
      simp only [hg, Option.some.injEq, Prod.mk.injEq] at h
      obtain ⟨rfl, h2, h3⟩ := h
      exact ⟨more, sc0, others0, rfl, hg, Prod.ext h2 h3⟩

theorem main_no_camera (lib : Library) (h : lib.cameras = []) :
    main lib = some (EXIT_FAILURE,
      { World.init with
        cout := (World.init.cout.insert "No cameras were identified on the system.").endl
        trace := [Call.managerStart, Call.cameras, Call.managerStop] }) := by
  simp [main, CameraManager.start, CameraManager.cameras, CameraManager.stop, World.record, h,
    World.init]

theorem main_no_configuration (lib : Library) (first : Camera) (more : List Camera)
    (h : lib.cameras = first :: more)
    (hg : lib.generateConfiguration first [StreamRole.Viewfinder] = []) :
    main lib = none := by
  simp [main, CameraManager.start, CameraManager.cameras, CameraManager.get,
    Camera.generateConfiguration, World.record, h, hg, World.init]

theorem main_configured (lib : Library) (camera : Camera) (streamConfig : StreamConfiguration)
    (others : List StreamConfiguration) (h : lib.setup = some (camera, streamConfig, others)) :
    ∃ W : World, W.trace = prologue camera ∧ W.cerr = World.init.cerr ∧
      W.camera = some camera ∧ W.created = 0 ∧ W.cout.width = 0 ∧
      main lib =
        (match allocateAll lib (streamConfig :: others) W with
        | Except.error (ret, w) => some (ret, w)
        | Except.ok w =>
          match createRequests lib camera streamConfig.stream
              (lib.buffers streamConfig.stream) [] w with
          | Except.error (ret, w) => some (ret, w)
          | Except.ok (requests, w) =>
            some (0,
              { camera := none
                cout := w.cout
                cerr := w.cerr
                created := w.created
                trace := w.trace ++ ([Call.connect camera, Call.start camera] ++
                  (requests.map (fun r => Call.queueRequest camera r) ++
                    epilogue camera streamConfig.stream)) })) := by
  obtain ⟨more, sc0, others0, hc, hg, hcfg⟩ := setup_cases lib camera streamConfig others h
  have h1 := congrArg Prod.fst hcfg
  have h2 := congrArg Prod.snd hcfg
  simp only at h1 h2
  simp only [main, CameraManager.start, CameraManager.cameras, CameraManager.get,
    Camera.generateConfiguration, World.record, hc, hg, World.init,
    CameraConfiguration.validate, Camera.configure, h1, h2, List.isEmpty_cons,
    List.find?_cons_of_pos, beq_self_eq_true, Bool.false_eq_true, if_false,
    FrameBufferAllocator.buffers, CameraManager.stop, Camera.release,
    FrameBufferAllocator.free, Camera.stop, sleep_for, queueAll_trace, Camera.start,
    Camera.connect, List.append_assoc, List.nil_append, List.singleton_append,
    List.cons_append]
  exact ⟨_, rfl, rfl, rfl, rfl, rfl, rfl⟩

theorem main_cases (lib : Library) (camera : Camera) (streamConfig : StreamConfiguration)
    (others : List StreamConfiguration) (h : lib.setup = some (camera, streamConfig, others)) :
    (∃ (w : World) (pre : List StreamConfiguration) (cfg : StreamConfiguration)
        (post : List StreamConfiguration),
      main lib = some (-ENOMEM, w) ∧ streamConfig :: others = pre ++ cfg :: post ∧
      (∀ c ∈ pre, 0 ≤ lib.allocate c.stream) ∧ lib.allocate cfg.stream < 0 ∧
      w.trace = prologue camera ++ allocations (pre ++ [cfg]) ∧
      w.cerr.text = "Can't allocate buffers\n") ∨
    ((∀ cfg ∈ streamConfig :: others, 0 ≤ lib.allocate cfg.stream) ∧
      ((∃ (v : Int) (w : World) (j : Nat) (b : FrameBuffer) (rs : List Nat) (l : List Call),
          main lib = some (v, w) ∧ (lib.buffers streamConfig.stream)[j]? = some b ∧
          rs.length = j ∧ lib.Bound streamConfig.stream 0 rs (lib.buffers streamConfig.stream) ∧
          w.trace = prologue camera ++ allocations (streamConfig :: others) ++
            bindings camera streamConfig.stream rs (lib.buffers streamConfig.stream) ++ l ∧
          ((lib.createRequest j = none ∧ v = -ENOMEM ∧ l = [Call.createRequest camera] ∧
              w.cerr.text = "Can't create request\n") ∨
            (∃ r : Nat, lib.createRequest j = some r ∧
              lib.addBuffer r streamConfig.stream b.addr < 0 ∧
              v = lib.addBuffer r streamConfig.stream b.addr ∧
              l = [Call.createRequest camera, Call.addBuffer r streamConfig.stream b.addr] ∧
              w.cerr.text = "Can't set buffer for request\n"))) ∨
        (∃ (rs : List Nat) (w : World),
          main lib = some (0, w) ∧ rs.length = (lib.buffers streamConfig.stream).length ∧
          lib.Bound streamConfig.stream 0 rs (lib.buffers streamConfig.stream) ∧
          w.trace = prologue camera ++ allocations (streamConfig :: others) ++
            bindings camera streamConfig.stream rs (lib.buffers streamConfig.stream) ++
            [Call.connect camera, Call.start camera] ++
            rs.map (fun r => Call.queueRequest camera r) ++
            epilogue camera streamConfig.stream ∧
          w.camera = none ∧ w.cerr.text = ""))) := by
  obtain ⟨W, hT, hE, hC, hK, _, hmain⟩ := main_configured lib camera streamConfig others h
  rcases allocateAll_spec lib (streamConfig :: others) W with
    ⟨w1, a1, a2, a3, a4, a5, a6⟩ | ⟨w1, pre, cfg, post, a1, a2, a3, a4, a5, a6⟩
  · right
    refine ⟨a2, ?_⟩
    rw [a1] at hmain
    simp only at hmain
    rcases createRequests_spec lib camera streamConfig.stream (lib.buffers streamConfig.stream)
        [] w1 with
      ⟨rs, w2, b1, b2, b3, b4, b5, b6⟩ | ⟨v, w2, j, b, rs, l, b1, b2, b3, b4, b5, b6⟩
    · right
      rw [b1] at hmain
      simp only [List.nil_append] at hmain
      rw [a6, hK] at b3
      refine ⟨rs, _, hmain, b2, b3, ?_, rfl, ?_⟩
      · simp only [b4, a3, hT, List.append_assoc]
      · show w2.cerr.text = ""
        rw [b5, a4, hE]; rfl
    · left
      rw [b1] at hmain
      simp only at hmain
      rw [a6, hK] at b4
      rw [a6, hK, Nat.zero_add] at b6
      refine ⟨v, w2, j, b, rs, l, hmain, b2, b3, b4, ?_, ?_⟩
      · simp only [b5, a3, hT, List.append_assoc]
      · rcases b6 with ⟨c1, c2, c3, c4⟩ | ⟨r, c1, c2, c3, c4, c5⟩
        · left
          refine ⟨c1, c2, c3, ?_⟩
          rw [c4, a4, hE]; rfl
        · right
          refine ⟨r, c1, c2, c3, c4, ?_⟩
          rw [c5, a4, hE]; rfl
  · left
    rw [a1] at hmain
    simp only at hmain
    refine ⟨w1, pre, cfg, post, hmain, a2, a3, a4, ?_, ?_⟩
    · rw [a5, hT]
    · rw [a6, hE]; rfl

/-! ## Shape of the traces -/

theorem prologue_setup (camera : Camera) : ∀ c ∈ prologue camera, c.isSetup = true := by
  intro c hc
  simp only [prologue, List.mem_cons, List.mem_singleton, List.not_mem_nil, or_false] at hc
  rcases hc with rfl | rfl | rfl | rfl | rfl | rfl | rfl | rfl <;> rfl

theorem allocations_setup (configs : List StreamConfiguration) :
    ∀ c ∈ allocations configs, c.isSetup = true := by
  intro c hc
  simp only [allocations, List.mem_map] at hc
  obtain ⟨cfg, _, rfl⟩ := hc
  rfl

theorem bindings_setup (camera : Camera) (stream : Stream) (requests : List Nat) :
    ∀ (buffers : List FrameBuffer), ∀ c ∈ bindings camera stream requests buffers,
      c.isSetup = true := by
  induction requests with
  | nil => intro buffers c hc; simp [bindings_nil] at hc
  | cons r rs ih =>
    intro buffers c hc
    cases buffers with
    | nil => simp [bindings] at hc
    | cons b rest =>
      rw [bindings_cons] at hc
      rcases List.mem_cons.1 hc with rfl | hc
      · rfl
      · rcases List.mem_cons.1 hc with rfl | hc
        · rfl
        · exact ih rest c hc

theorem setup_append (l₁ l₂ : List Call) (h₁ : ∀ c ∈ l₁, c.isSetup = true)
    (h₂ : ∀ c ∈ l₂, c.isSetup = true) : ∀ c ∈ l₁ ++ l₂, c.isSetup = true := by
  intro c hc
  rcases List.mem_append.1 hc with h | h
  · exact h₁ c h
  · exact h₂ c h

theorem Quiet_of_setup (trace : List Call) (h : ∀ c ∈ trace, c.isSetup = true) :
    Quiet trace := by
  refine ⟨fun camera hm => ?_, fun camera request hm => ?_⟩
  · exact absurd (h _ hm) (by simp [Call.isSetup])
  · exact absurd (h _ hm) (by simp [Call.isSetup])

theorem Bound_at (lib : Library) (stream : Stream) (rs : List Nat) (buffers : List FrameBuffer)
    (hB : lib.Bound stream 0 rs buffers) (i : Nat) (hi : i < rs.length) (b : FrameBuffer)
    (hb : buffers[i]? = some b) :
    ∃ r : Nat, rs[i]? = some r ∧ lib.createRequest i = some r ∧
      0 ≤ lib.addBuffer r stream b.addr := by
  have h := hB i rs[i] b (List.getElem?_eq_getElem hi) hb
  rw [Nat.zero_add] at h
  exact ⟨rs[i], List.getElem?_eq_getElem hi, h.1, h.2⟩

/-- Two failing positions, each preceded by successful bindings only, coincide. -/
theorem failure_index (lib : Library) (stream : Stream) (buffers : List FrameBuffer)
    (j j' : Nat) (b b' : FrameBuffer) (rs rs' : List Nat)
    (hb : buffers[j]? = some b) (hb' : buffers[j']? = some b')
    (hl : rs.length = j) (hl' : rs'.length = j')
    (hB : lib.Bound stream 0 rs buffers) (hB' : lib.Bound stream 0 rs' buffers)
    (hf : lib.createRequest j = none ∨
      ∃ r, lib.createRequest j = some r ∧ lib.addBuffer r stream b.addr < 0)
    (hf' : lib.createRequest j' = none ∨
      ∃ r, lib.createRequest j' = some r ∧ lib.addBuffer r stream b'.addr < 0) :
    j = j' := by
  rcases Nat.lt_trichotomy j j' with hlt | heq | hgt
  · obtain ⟨r, _, h1, h2⟩ := Bound_at lib stream rs' buffers hB' j (by omega) b hb
    rcases hf with h | ⟨r', h, h'⟩
    · rw [h] at h1; cases h1
    · rw [h] at h1; cases h1; omega
  · exact heq
  · obtain ⟨r, _, h1, h2⟩ := Bound_at lib stream rs buffers hB j' (by omega) b' hb'
    rcases hf' with h | ⟨r', h, h'⟩
    · rw [h] at h1; cases h1
    · rw [h] at h1; cases h1; omega

theorem failure_trace_setup (camera : Camera) (stream : Stream)
    (configs : List StreamConfiguration) (rs : List Nat) (buffers : List FrameBuffer)
    (l : List Call) (hl : ∀ c ∈ l, c.isSetup = true) :
    ∀ c ∈ prologue camera ++ allocations configs ++ bindings camera stream rs buffers ++ l,
      c.isSetup = true :=
  setup_append _ _ (setup_append _ _ (setup_append _ _ (prologue_setup camera)
    (allocations_setup configs)) (bindings_setup camera stream rs buffers)) hl

/-! ## Properties of `main` -/

/-- C5: in each of the four failure cases `main` returns, with a value that
is not 0, after writing the diagnostic of that case, and its trace has no
`Camera::start` and no `queueRequest` call.  The cases: the camera list is
empty; `allocate` answers a negative value for an entry of the
configuration; after successful allocations and `j` successful bindings the
next `createRequest` answers null; or it answers a request for which
`addBuffer` answers a negative value. -/
theorem main_failure (lib : Library) :
    (lib.cameras = [] →
      ∃ w : World, main lib = some (EXIT_FAILURE, w) ∧ EXIT_FAILURE ≠ 0 ∧
        w.cout.text = "No cameras were identified on the system.\n" ∧ Quiet w.trace) ∧
    (∀ (camera : Camera) (streamConfig : StreamConfiguration)
        (others : List StreamConfiguration),
      lib.setup = some (camera, streamConfig, others) →
      ((∃ cfg ∈ streamConfig :: others, lib.allocate cfg.stream < 0) →
        ∃ w : World, main lib = some (-ENOMEM, w) ∧ -ENOMEM ≠ 0 ∧
          w.cerr.text = "Can't allocate buffers\n" ∧ Quiet w.trace) ∧
      ((∀ cfg ∈ streamConfig :: others, 0 ≤ lib.allocate cfg.stream) →
        ∀ (j : Nat) (b : FrameBuffer) (requests : List Nat),
          (lib.buffers streamConfig.stream)[j]? = some b → requests.length = j →
          lib.Bound streamConfig.stream 0 requests (lib.buffers streamConfig.stream) →
          (lib.createRequest j = none →
            ∃ w : World, main lib = some (-ENOMEM, w) ∧ -ENOMEM ≠ 0 ∧
              w.cerr.text = "Can't create request\n" ∧ Quiet w.trace) ∧
          (∀ r : Nat, lib.createRequest j = some r →
            lib.addBuffer r streamConfig.stream b.addr < 0 →
            ∃ w : World, main lib = some (lib.addBuffer r streamConfig.stream b.addr, w) ∧
              lib.addBuffer r streamConfig.stream b.addr ≠ 0 ∧
              w.cerr.text = "Can't set buffer for request\n" ∧ Quiet w.trace))) := by
  refine ⟨fun hc => ?_, fun camera streamConfig others hsetup => ⟨fun hfail => ?_,
    fun hok j b requests hb hlen hB => ⟨fun hnull => ?_, fun r hr hneg => ?_⟩⟩⟩
  · refine ⟨_, main_no_camera lib hc, by decide, rfl, ?_⟩
    refine ⟨fun camera hm => ?_, fun camera request hm => ?_⟩
    · simp at hm
    · simp at hm
  · obtain ⟨cfg, hmem, hneg⟩ := hfail
    rcases main_cases lib camera streamConfig others hsetup with
      ⟨w, pre, c, post, h1, h2, h3, h4, h5, h6⟩ | ⟨hall, _⟩
    · refine ⟨w, h1, by decide, h6, Quiet_of_setup _ ?_⟩
      rw [h5]
      exact setup_append _ _ (prologue_setup camera) (allocations_setup _)
    · exact absurd hneg (not_lt.2 (hall cfg hmem))
  · rcases main_cases lib camera streamConfig others hsetup with
      ⟨w, pre, c, post, h1, h2, h3, h4, h5, h6⟩ |
      ⟨_, ⟨v, w, j', b', rs, l, h1, h2, h3, h4, h5, h6⟩ | ⟨rs, w, h1, h2, h3, _⟩⟩
    · exact absurd h4 (not_lt.2 (hok c (by rw [h2]; simp)))
    · have hf' : lib.createRequest j' = none ∨
          ∃ r, lib.createRequest j' = some r ∧
            lib.addBuffer r streamConfig.stream b'.addr < 0 := by
        rcases h6 with ⟨c1, _⟩ | ⟨r, c1, c2, _⟩
        · exact Or.inl c1
        · exact Or.inr ⟨r, c1, c2⟩
      have hj := failure_index lib streamConfig.stream _ j j' b b' requests rs hb h2 hlen h3
        hB h4 (Or.inl hnull) hf'
      subst hj
      rcases h6 with ⟨c1, c2, c3, c4⟩ | ⟨r, c1, _⟩
      · subst c2 c3
        refine ⟨w, h1, by decide, c4, Quiet_of_setup _ ?_⟩
        rw [h5]
        refine failure_trace_setup _ _ _ _ _ _ ?_
        intro c hc
        rcases List.mem_singleton.1 hc with rfl
        rfl
      · rw [hnull] at c1; cases c1
    · have hlt : j < rs.length := by
        rw [h2]
        exact (List.getElem?_eq_some.1 hb).1
      obtain ⟨r, _, c1, _⟩ := Bound_at lib streamConfig.stream rs _ h3 j hlt b hb
      rw [hnull] at c1; cases c1
  · rcases main_cases lib camera streamConfig others hsetup with
      ⟨w, pre, c, post, h1, h2, h3, h4, h5, h6⟩ |
      ⟨_, ⟨v, w, j', b', rs, l, h1, h2, h3, h4, h5, h6⟩ | ⟨rs, w, h1, h2, h3, _⟩⟩
    · exact absurd h4 (not_lt.2 (hok c (by rw [h2]; simp)))
    · have hf' : lib.createRequest j' = none ∨
          ∃ r, lib.createRequest j' = some r ∧
            lib.addBuffer r streamConfig.stream b'.addr < 0 := by
        rcases h6 with ⟨c1, _⟩ | ⟨r, c1, c2, _⟩
        · exact Or.inl c1
        · exact Or.inr ⟨r, c1, c2⟩
      have hj := failure_index lib streamConfig.stream _ j j' b b' requests rs hb h2 hlen h3
        hB h4 (Or.inr ⟨r, hr, hneg⟩) hf'
      subst hj
      have hbb : b = b' := by rw [hb] at h2; exact Option.some.inj h2
      subst hbb
      rcases h6 with ⟨c1, _⟩ | ⟨r', c1, c2, c3, c4, c5⟩
      · rw [hr] at c1; cases c1
      · rw [hr] at c1
        cases c1
        subst c3 c4
        refine ⟨w, h1, by omega, c5, Quiet_of_setup _ ?_⟩
        rw [h5]
        refine failure_trace_setup _ _ _ _ _ _ ?_
        intro c hc
        simp only [List.mem_cons, List.mem_singleton, List.not_mem_nil, or_false] at hc
        rcases hc with rfl | rfl <;> rfl
    · have hlt : j < rs.length := by
        rw [h2]
        exact (List.getElem?_eq_some.1 hb).1
      obtain ⟨r', _, c1, c2⟩ := Bound_at lib streamConfig.stream rs _ h3 j hlt b hb
      rw [hr] at c1; cases c1
      omega

theorem demo_bound_one (lib : Library)
    (hb : lib.buffers 7 = demoLibrary.buffers 7) (h0 : lib.createRequest 0 = some 10)
    (h1 : 0 ≤ lib.addBuffer 10 7 100) :
    lib.Bound 7 0 [10] (lib.buffers 7) := by
  intro i r b hr hbuf
  cases i with
  | zero =>
    rw [hb] at hbuf
    simp [demoLibrary] at hr hbuf
    subst hr hbuf
    exact ⟨h0, h1⟩
  | succ i => simp at hr

theorem main_failure_witness :
    (∃ w : World, main noCameraLibrary = some (EXIT_FAILURE, w) ∧ EXIT_FAILURE ≠ 0 ∧
      w.cout.text = "No cameras were identified on the system.\n" ∧ Quiet w.trace) ∧
    (∃ w : World, main allocateFailLibrary = some (-ENOMEM, w) ∧ -ENOMEM ≠ 0 ∧
      w.cerr.text = "Can't allocate buffers\n" ∧ Quiet w.trace) ∧
    (∃ w : World, main nullRequestLibrary = some (-ENOMEM, w) ∧ -ENOMEM ≠ 0 ∧
      w.cerr.text = "Can't create request\n" ∧ Quiet w.trace) ∧
    (∃ w : World, main addBufferFailLibrary = some (-22, w) ∧ (-22 : Int) ≠ 0 ∧
      w.cerr.text = "Can't set buffer for request\n" ∧ Quiet w.trace) :=
  ⟨(main_failure noCameraLibrary).1 rfl,
    ((main_failure allocateFailLibrary).2 demoCamera demoConfig [] rfl).1
      ⟨demoConfig, by simp, by decide⟩,
    (((main_failure nullRequestLibrary).2 demoCamera demoConfig [] rfl).2
      (fun _ _ => (by decide : (0 : Int) ≤ 2)) 1 demoSecondBuffer [10] rfl rfl
      (demo_bound_one nullRequestLibrary rfl rfl (by decide))).1 rfl,
    (((main_failure addBufferFailLibrary).2 demoCamera demoConfig [] rfl).2
      (fun _ _ => (by decide : (0 : Int) ≤ 2)) 1 demoSecondBuffer [10] rfl rfl
      (demo_bound_one addBufferFailLibrary rfl rfl (by decide))).2 11 rfl (by decide)⟩

theorem main_defined (lib : Library) (v : Int) (w : World) (h : main lib = some (v, w)) :
    lib.cameras = [] ∨
      ∃ (camera : Camera) (streamConfig : StreamConfiguration)
        (others : List StreamConfiguration), lib.cameras ≠ [] ∧
        lib.setup = some (camera, streamConfig, others) := by
  cases hc : lib.cameras with
  | nil => exact Or.inl rfl
  | cons first more =>
    right
    cases hg : lib.generateConfiguration first [StreamRole.Viewfinder] with
    | nil =>
      rw [main_no_configuration lib first more hc hg] at h
      cases h
    | cons sc0 others0 =>
      exact ⟨first, _, _, by simp, by simp only [Library.setup, hc, hg]; rfl⟩

theorem queued_append (l₁ l₂ : List Call) : queued (l₁ ++ l₂) = queued l₁ ++ queued l₂ := by
  simp [queued, List.filterMap_append]

theorem bound_append (l₁ l₂ : List Call) : bound (l₁ ++ l₂) = bound l₁ ++ bound l₂ := by
  simp [bound, List.filterMap_append]

theorem queued_setup (l : List Call) (h : ∀ c ∈ l, c.isSetup = true) : queued l = [] := by
  induction l with
  | nil => rfl
  | cons c rest ih =>
    have hc := h c (List.mem_cons_self _ _)
    have hr := ih (fun c' hc' => h c' (List.mem_cons_of_mem _ hc'))
    cases c <;> simp [Call.isSetup] at hc <;> simpa [queued] using hr

theorem queued_map (camera : Camera) (requests : List Nat) :
    queued (requests.map (fun r => Call.queueRequest camera r)) = requests := by
  induction requests with
  | nil => rfl
  | cons r rest ih => simp [queued] at ih ⊢; exact ih

theorem bound_map (camera : Camera) (requests : List Nat) :
    bound (requests.map (fun r => Call.queueRequest camera r)) = [] := by
  induction requests with
  | nil => rfl
  | cons r rest ih => simp [bound] at ih ⊢

theorem bound_allocations (configs : List StreamConfiguration) :
    bound (allocations configs) = [] := by
  induction configs with
  | nil => rfl
  | cons c rest ih => simp [bound, allocations] at ih ⊢

theorem bound_bindings (camera : Camera) (stream : Stream) (requests : List Nat) :
    ∀ buffers : List FrameBuffer,
      bound (bindings camera stream requests buffers) =
        List.zipWith (fun r b => (r, stream, b.addr)) requests buffers := by
  induction requests with
  | nil => intro buffers; simp [bindings_nil, bound]
  | cons r rs ih =>
    intro buffers
    cases buffers with
    | nil => simp [bindings, bound]
    | cons b rest =>
      rw [bindings_cons]
      have := ih rest
      simp only [bound] at this ⊢
      simp [this]

theorem count_queue_setup (camera : Camera) (r : Nat) (l : List Call)
    (h : ∀ c ∈ l, c.isSetup = true) : l.count (Call.queueRequest camera r) = 0 :=
  List.count_eq_zero_of_not_mem (fun hm => absurd (h _ hm) (by simp [Call.isSetup]))

theorem count_queue_map (camera : Camera) (r : Nat) (requests : List Nat) :
    (requests.map (fun r => Call.queueRequest camera r)).count (Call.queueRequest camera r) =
      requests.count r :=
  List.count_map_of_injective requests (fun r => Call.queueRequest camera r)
    (fun a b hab => by cases hab; rfl) r

theorem demo_bound (lib : Library)
    (hb : lib.buffers 7 = demoLibrary.buffers 7) (h0 : lib.createRequest 0 = some 10)
    (h1 : lib.createRequest 1 = some 11) (h2 : ∀ r b, 0 ≤ lib.addBuffer r 7 b) :
    ∀ (i : Nat) (b : FrameBuffer), (lib.buffers 7)[i]? = some b →
      ∃ r, lib.createRequest i = some r ∧ 0 ≤ lib.addBuffer r 7 b.addr := by
  intro i b hbuf
  rw [hb] at hbuf
  match i with
  | 0 => exact ⟨10, h0, h2 _ _⟩
  | 1 => exact ⟨11, h1, h2 _ _⟩
  | i + 2 => simp [demoLibrary] at hbuf

/-- C6: on every run of `main` whose trace has a `Camera::start`, there is a
list of requests as long as `allocator->buffers(stream)`, the k-th of them
being what the k-th `createRequest` answered; the `addBuffer` calls of the
run are exactly one per request, binding the k-th request to the k-th
buffer on the stream of entry 0; the `queueRequest` calls of the run are
exactly those requests in order, so each is queued as often as it occurs in
the list, which is once when the requests are distinct objects. -/
theorem main_one_request_per_buffer (lib : Library) (v : Int) (w : World) (started : Camera)
    (hmain : main lib = some (v, w)) (hstart : Call.start started ∈ w.trace) :
    ∃ (camera : Camera) (streamConfig : StreamConfiguration)
        (others : List StreamConfiguration) (requests : List Nat),
      lib.setup = some (camera, streamConfig, others) ∧
      requests.length = (lib.buffers streamConfig.stream).length ∧
      lib.Bound streamConfig.stream 0 requests (lib.buffers streamConfig.stream) ∧
      bound w.trace =
        List.zipWith (fun r b => (r, streamConfig.stream, b.addr)) requests
          (lib.buffers streamConfig.stream) ∧
      queued w.trace = requests ∧
      (queued w.trace).length = (lib.buffers streamConfig.stream).length ∧
      (∀ r, w.trace.count (Call.queueRequest camera r) = requests.count r) ∧
      (requests.Nodup → ∀ r ∈ requests, w.trace.count (Call.queueRequest camera r) = 1) := by
  rcases main_defined lib v w hmain with hc | ⟨camera, streamConfig, others, _, hsetup⟩
  · rw [main_no_camera lib hc] at hmain
    cases hmain
    simp at hstart
  · have hquiet : ∀ t : List Call, (∀ c ∈ t, c.isSetup = true) → w.trace = t → False := by
      intro t ht heq
      rw [heq] at hstart
      exact absurd (ht _ hstart) (by simp [Call.isSetup])
    rcases main_cases lib camera streamConfig others hsetup with
      ⟨w', pre, c, post, h1, h2, h3, h4, h5, h6⟩ |
      ⟨_, ⟨v', w', j', b', rs, l, h1, h2, h3, h4, h5, h6⟩ | ⟨rs, w', h1, h2, h3, h4, _⟩⟩
    · rw [h1] at hmain
      cases hmain
      exact (hquiet _ (setup_append _ _ (prologue_setup camera) (allocations_setup _)) h5).elim
    · rw [h1] at hmain
      cases hmain
      refine (hquiet _ (failure_trace_setup _ _ _ _ _ l ?_) h5).elim
      rcases h6 with ⟨_, _, c3, _⟩ | ⟨r, _, _, _, c4, _⟩
      · subst c3
        intro c hc
        rcases List.mem_singleton.1 hc with rfl
        rfl
      · subst c4
        intro c hc
        simp only [List.mem_cons, List.mem_singleton, List.not_mem_nil, or_false] at hc
        rcases hc with rfl | rfl <;> rfl
    · rw [h1] at hmain
      cases hmain
      have hq : queued w.trace = rs := by
        rw [h4]
        simp only [queued_append, queued_map, queued_setup _ (prologue_setup camera),
          queued_setup _ (allocations_setup _), queued_setup _ (bindings_setup _ _ _ _)]
        simp [queued, epilogue]
      have hcount : ∀ r, w.trace.count (Call.queueRequest camera r) = rs.count r := by
        intro r
        rw [h4]
        simp only [List.count_append, count_queue_map,
          count_queue_setup _ _ _ (prologue_setup camera),
          count_queue_setup _ _ _ (allocations_setup _),
          count_queue_setup _ _ _ (bindings_setup _ _ _ _)]
        simp [epilogue]
      refine ⟨camera, streamConfig, others, rs, hsetup, h2, h3, ?_, hq, by rw [hq, h2], hcount,
        fun hnd r hr => by rw [hcount, List.count_eq_one_of_mem hnd hr]⟩
      rw [h4]
      simp only [bound_append, bound_map, bound_allocations, bound_bindings]
      simp [bound, prologue, epilogue]

theorem main_one_request_per_buffer_witness :
    main demoLibrary = some (0, demoRun) ∧ Call.start demoCamera ∈ demoRun.trace ∧
      ∃ (camera : Camera) (streamConfig : StreamConfiguration)
          (others : List StreamConfiguration) (requests : List Nat),
        demoLibrary.setup = some (camera, streamConfig, others) ∧
        requests.length = (demoLibrary.buffers streamConfig.stream).length ∧
        demoLibrary.Bound streamConfig.stream 0 requests
          (demoLibrary.buffers streamConfig.stream) ∧
        bound demoRun.trace =
          List.zipWith (fun r b => (r, streamConfig.stream, b.addr)) requests
            (demoLibrary.buffers streamConfig.stream) ∧
        queued demoRun.trace = requests ∧
        (queued demoRun.trace).length = (demoLibrary.buffers streamConfig.stream).length ∧
        (∀ r, demoRun.trace.count (Call.queueRequest camera r) = requests.count r) ∧
        (requests.Nodup →
          ∀ r ∈ requests, demoRun.trace.count (Call.queueRequest camera r) = 1) :=
  ⟨by decide, by decide,
    main_one_request_per_buffer demoLibrary 0 demoRun demoCamera (by decide) (by decide)⟩

/-- C7, as amended: on every run in which `generateConfiguration` answers a
configuration with at least one entry and none of the four failures occurs
(there is a camera, every `allocate` answers a non-negative value, every
`createRequest` answers a request and every `addBuffer` a non-negative
value) `main` returns 0 and its calls are, in this order: the
manager's start, the enumeration, `get` of the first camera,
`generateConfiguration`, the size of entry 0 set to 640x480, `validate`,
`configure`, `allocate` for every entry, a request created and bound per
buffer, the handler connected, `Camera::start`, every request queued, the
sleep of 3000 ms, `Camera::stop`, the allocator's `free`, `release`, and
the manager's stop. -/
theorem main_lifecycle (lib : Library) (camera : Camera) (streamConfig : StreamConfiguration)
    (others : List StreamConfiguration)
    (hsetup : lib.setup = some (camera, streamConfig, others))
    (halloc : ∀ cfg ∈ streamConfig :: others, 0 ≤ lib.allocate cfg.stream)
    (hreq : ∀ (i : Nat) (b : FrameBuffer), (lib.buffers streamConfig.stream)[i]? = some b →
      ∃ r, lib.createRequest i = some r ∧ 0 ≤ lib.addBuffer r streamConfig.stream b.addr) :
    ∃ (requests : List Nat) (w : World), main lib = some (0, w) ∧
      lib.cameras.head? = some camera ∧
      requests.length = (lib.buffers streamConfig.stream).length ∧
      lib.Bound streamConfig.stream 0 requests (lib.buffers streamConfig.stream) ∧
      w.trace =
        [Call.managerStart, Call.cameras, Call.cameras, Call.get camera.id,
          Call.generateConfiguration camera [StreamRole.Viewfinder], Call.setSize 0 640 480,
          Call.validate, Call.configure camera] ++
        (streamConfig :: others).map (fun cfg => Call.allocate cfg.stream) ++
        (List.zipWith
          (fun r b => [Call.createRequest camera, Call.addBuffer r streamConfig.stream b.addr])
          requests (lib.buffers streamConfig.stream)).flatten ++
        [Call.connect camera, Call.start camera] ++
        requests.map (fun r => Call.queueRequest camera r) ++
        [Call.sleep 3000, Call.stop camera, Call.free streamConfig.stream,
          Call.release camera, Call.managerStop] := by
  obtain ⟨more, _, _, hcams, _, _⟩ := setup_cases lib camera streamConfig others hsetup
  rcases main_cases lib camera streamConfig others hsetup with
    ⟨w', pre, c, post, h1, h2, h3, h4, h5, h6⟩ |
    ⟨_, ⟨v', w', j', b', rs, l, h1, h2, h3, h4, h5, h6⟩ | ⟨rs, w', h1, h2, h3, h4, _⟩⟩
  · exact absurd h4 (not_lt.2 (halloc c (by rw [h2]; simp)))
  · obtain ⟨r, c1, c2⟩ := hreq j' b' h2
    rcases h6 with ⟨d1, _⟩ | ⟨r', d1, d2, _⟩
    · rw [c1] at d1; cases d1
    · rw [c1] at d1; cases d1; omega
  · exact ⟨rs, w', h1, by rw [hcams]; rfl, h2, h3, h4⟩

theorem main_lifecycle_witness :
    demoLibrary.setup = some (demoCamera, demoConfig, []) ∧
      ∃ (requests : List Nat) (w : World), main demoLibrary = some (0, w) ∧
        demoLibrary.cameras.head? = some demoCamera ∧
        requests.length = (demoLibrary.buffers demoConfig.stream).length ∧
        demoLibrary.Bound demoConfig.stream 0 requests
          (demoLibrary.buffers demoConfig.stream) ∧
        w.trace =
          [Call.managerStart, Call.cameras, Call.cameras, Call.get demoCamera.id,
            Call.generateConfiguration demoCamera [StreamRole.Viewfinder],
            Call.setSize 0 640 480, Call.validate, Call.configure demoCamera] ++
          (demoConfig :: []).map (fun cfg => Call.allocate cfg.stream) ++
          (List.zipWith
            (fun r b =>
              [Call.createRequest demoCamera, Call.addBuffer r demoConfig.stream b.addr])
            requests (demoLibrary.buffers demoConfig.stream)).flatten ++
          [Call.connect demoCamera, Call.start demoCamera] ++
          requests.map (fun r => Call.queueRequest demoCamera r) ++
          [Call.sleep 3000, Call.stop demoCamera, Call.free demoConfig.stream,
            Call.release demoCamera, Call.managerStop] :=
  ⟨rfl, main_lifecycle demoLibrary demoCamera demoConfig [] rfl
    (fun _ _ => (by decide : (0 : Int) ≤ 2))
    (demo_bound demoLibrary rfl rfl rfl (fun _ _ => (by decide : (0 : Int) ≤ 0)))⟩

/-- C7 as stated fails: with a camera whose `generateConfiguration` answers
no entry, none of the four failures occurs (the camera list is not empty, no
`allocate` answers a negative value, no `createRequest` answers null, no
`addBuffer` answers a negative value), yet `main` has no result, the access
to entry 0 at line 65 being undefined: it does not return 0. -/
theorem main_lifecycle_counterexample :
    noConfigurationLibrary.cameras ≠ [] ∧
      (∀ stream, 0 ≤ noConfigurationLibrary.allocate stream) ∧
      (∀ k, noConfigurationLibrary.createRequest k ≠ none) ∧
      (∀ request stream buffer, 0 ≤ noConfigurationLibrary.addBuffer request stream buffer) ∧
      main noConfigurationLibrary = none ∧
      ¬ ∃ w : World, main noConfigurationLibrary = some (0, w) := by
  have hmain : main noConfigurationLibrary = none := by decide
  refine ⟨by decide, fun _ => (by decide : (0 : Int) ≤ 2), fun k h => ?_,
    fun _ _ _ => (by decide : (0 : Int) ≤ 0), hmain, ?_⟩
  · exact absurd h (by simp [noConfigurationLibrary, demoLibrary])
  · rintro ⟨w, hw⟩
    rw [hmain] at hw
    cases hw

/-! ## No field width stays pending on standard output -/

theorem allocateAll_cout_width (lib : Library) (configs : List StreamConfiguration) :
    ∀ w : World, w.cout.width = 0 →
      match allocateAll lib configs w with
      | Except.ok w' => w'.cout.width = 0
      | Except.error (_, w') => w'.cout.width = 0 := by
  induction configs with
  | nil => intro w h; simpa [allocateAll] using h
  | cons cfg rest ih =>
    intro w h
    by_cases hneg : lib.allocate cfg.stream < 0
    · simp only [allocateAll, FrameBufferAllocator.allocate, hneg, if_true]
      exact h
    · simp only [allocateAll, FrameBufferAllocator.allocate, hneg, if_false]
      exact ih _ rfl

theorem createRequests_cout (lib : Library) (camera : Camera) (stream : Stream)
    (buffers : List FrameBuffer) :
    ∀ (requests : List Nat) (w : World),
      match createRequests lib camera stream buffers requests w with
      | Except.ok (_, w') => w'.cout = w.cout
      | Except.error (_, w') => w'.cout = w.cout := by
  induction buffers with
  | nil => intro requests w; simp [createRequests]
  | cons b rest ih =>
    intro requests w
    cases hcr : lib.createRequest w.created with
    | none => simp [createRequests, Camera.createRequest, hcr]
    | some r0 =>
      by_cases hneg : lib.addBuffer r0 stream b.addr < 0
      · simp [createRequests, Camera.createRequest, hcr, Request.addBuffer, World.record, hneg]
      · simp only [createRequests, Camera.createRequest, hcr, Request.addBuffer, World.record,
          hneg, if_false]
        exact ih _ _

/-- Whenever `main` returns, standard output has no pending field width: the
state in which the handler is run satisfies what its output format relies on. -/
theorem main_cout_width (lib : Library) (v : Int) (w : World)
    (hmain : main lib = some (v, w)) : w.cout.width = 0 := by
  rcases main_defined lib v w hmain with hc | ⟨camera, streamConfig, others, _, hs⟩
  · rw [main_no_camera lib hc] at hmain
    cases hmain
    rfl
  · obtain ⟨W, _, _, _, _, hW, hm⟩ := main_configured lib camera streamConfig others hs
    rw [hm] at hmain
    have h1 := allocateAll_cout_width lib (streamConfig :: others) W hW
    cases ha : allocateAll lib (streamConfig :: others) W with
    | error e =>
      obtain ⟨ret, w1⟩ := e
      rw [ha] at hmain h1
      simp only [Option.some.injEq, Prod.mk.injEq] at hmain
      rw [← hmain.2]
      exact h1
    | ok w1 =>
      rw [ha] at hmain h1
      simp only at hmain h1
      have h2 := createRequests_cout lib camera streamConfig.stream
        (lib.buffers streamConfig.stream) [] w1
      cases hr : createRequests lib camera streamConfig.stream
          (lib.buffers streamConfig.stream) [] w1 with
      | error e =>
        obtain ⟨ret, w2⟩ := e
        rw [hr] at hmain h2
        simp only [Option.some.injEq, Prod.mk.injEq] at hmain h2
        rw [← hmain.2, h2]
        exact h1
      | ok p =>
        obtain ⟨requests, w2⟩ := p
        rw [hr] at hmain h2
        simp only [Option.some.injEq, Prod.mk.injEq] at hmain h2
        rw [← hmain.2]
        show w2.cout.width = 0
        rw [h2]
        exact h1

/-! ## Discarded results -/

theorem allocateAll_answering (lib : Library)
    (validate : StreamConfiguration → List StreamConfiguration → ConfigStatus)
    (configure : Camera → StreamConfiguration → List StreamConfiguration → Int)
    (start : Camera → Int) (queueRequest : Camera → Nat → Int) (stop : Camera → Int)
    (release : Camera → Int) (configs : List StreamConfiguration) :
    ∀ w : World,
      allocateAll (lib.answering validate configure start queueRequest stop release) configs w =
        allocateAll lib configs w := by
  induction configs with
  | nil => intro w; rfl
  | cons cfg rest ih =>
    intro w
    simp only [allocateAll, FrameBufferAllocator.allocate, FrameBufferAllocator.buffers, ih]
    rfl

theorem createRequests_answering (lib : Library)
    (validate : StreamConfiguration → List StreamConfiguration → ConfigStatus)
    (configure : Camera → StreamConfiguration → List StreamConfiguration → Int)
    (start : Camera → Int) (queueRequest : Camera → Nat → Int) (stop : Camera → Int)
    (release : Camera → Int) (camera : Camera) (stream : Stream)
    (buffers : List FrameBuffer) :
    ∀ (requests : List Nat) (w : World),
      createRequests (lib.answering validate configure start queueRequest stop release)
          camera stream buffers requests w =
        createRequests lib camera stream buffers requests w := by
  induction buffers with
  | nil => intro requests w; rfl
  | cons b rest ih =>
    intro requests w
    simp only [createRequests, Camera.createRequest, Request.addBuffer, ih]
    rfl

/-- C8: the results of `validate`, `configure`, `Camera::start`,
`queueRequest`, `Camera::stop` and `release` do not influence the program:
with any other results for these calls, and every other answer of the
library unchanged, `main` has the same outcome (the same return value, the
same calls with the same arguments, the same output), and so has
`requestComplete` on every request and state. -/
theorem ignored_results (lib : Library)
    (validate : StreamConfiguration → List StreamConfiguration → ConfigStatus)
    (configure : Camera → StreamConfiguration → List StreamConfiguration → Int)
    (start : Camera → Int) (queueRequest : Camera → Nat → Int) (stop : Camera → Int)
    (release : Camera → Int) :
    main (lib.answering validate configure start queueRequest stop release) = main lib ∧
      ∀ (request : Request) (w : World),
        requestComplete (lib.answering validate configure start queueRequest stop release)
            request w =
          requestComplete lib request w := by
  refine ⟨?_, fun request w => rfl⟩
  simp only [main, allocateAll_answering, createRequests_answering, queueAll_trace]
  rfl

/-! ## Calls that never occur -/

/-- C9: no run of `main` calls `acquire`: whatever the library answers and
whatever camera is named, the trace with which `main` returns holds no
`acquire` call; and a run that returns 0 has configured, started and
released its camera. -/
theorem main_never_acquires (lib : Library) (v : Int) (w : World)
    (hmain : main lib = some (v, w)) :
    (∀ camera, Call.acquire camera ∉ w.trace) ∧
      (v = 0 → ∃ camera, lib.cameras.head? = some camera ∧ Call.configure camera ∈ w.trace ∧
        Call.start camera ∈ w.trace ∧ Call.release camera ∈ w.trace) := by
  have hsetup : ∀ t : List Call, (∀ c ∈ t, c.isSetup = true) →
      ∀ camera, Call.acquire camera ∉ t :=
    fun t ht camera hm => absurd (ht _ hm) (by simp [Call.isSetup])
  rcases main_defined lib v w hmain with hc | ⟨cam, streamConfig, others, _, hs⟩
  · rw [main_no_camera lib hc] at hmain
    cases hmain
    exact ⟨fun camera hmem => by simp at hmem, fun h0 => absurd h0 (by decide)⟩
  · obtain ⟨more, _, _, hcams, _, _⟩ := setup_cases lib cam streamConfig others hs
    rcases main_cases lib cam streamConfig others hs with
      ⟨w', pre, c, post, h1, h2, h3, h4, h5, h6⟩ |
      ⟨_, ⟨v', w', j', b', rs, l, h1, h2, h3, h4, h5, h6⟩ | ⟨rs, w', h1, h2, h3, h4, _⟩⟩
    · rw [h1] at hmain
      cases hmain
      refine ⟨?_, fun h0 => absurd h0 (by decide)⟩
      rw [h5]
      exact hsetup _ (setup_append _ _ (prologue_setup cam) (allocations_setup _))
    · rw [h1] at hmain
      cases hmain
      have hv : v ≠ 0 := by
        rcases h6 with ⟨_, c2, _⟩ | ⟨r, _, c2, c3, _⟩
        · rw [c2]; decide
        · omega
      refine ⟨?_, fun h0 => absurd h0 hv⟩
      rw [h5]
      refine hsetup _ (failure_trace_setup _ _ _ _ _ l ?_)
      rcases h6 with ⟨_, _, c3, _⟩ | ⟨r, _, _, _, c4, _⟩
      · subst c3
        intro c hc
        rcases List.mem_singleton.1 hc with rfl
        rfl
      · subst c4
        intro c hc
        simp only [List.mem_cons, List.mem_singleton, List.not_mem_nil, or_false] at hc
        rcases hc with rfl | rfl <;> rfl
    · rw [h1] at hmain
      cases hmain
      refine ⟨fun camera hmem => ?_, fun _ => ⟨cam, by rw [hcams]; rfl, ?_, ?_, ?_⟩⟩
      · rw [h4] at hmem
        simp only [List.mem_append] at hmem
        rcases hmem with ((((hm | hm) | hm) | hm) | hm) | hm
        · exact hsetup _ (prologue_setup cam) camera hm
        · exact hsetup _ (allocations_setup _) camera hm
        · exact hsetup _ (bindings_setup _ _ _ _) camera hm
        · simp at hm
        · simp at hm
        · simp [epilogue] at hm
      · rw [h4]; simp [prologue]
      · rw [h4]; simp
      · rw [h4]; simp [epilogue]

theorem main_never_acquires_witness :
    main demoLibrary = some (0, demoRun) ∧
      (∀ camera, Call.acquire camera ∉ demoRun.trace) ∧
      ((0 : Int) = 0 → ∃ camera, demoLibrary.cameras.head? = some camera ∧
        Call.configure camera ∈ demoRun.trace ∧ Call.start camera ∈ demoRun.trace ∧
        Call.release camera ∈ demoRun.trace) :=
  ⟨by decide, main_never_acquires demoLibrary 0 demoRun (by decide)⟩

/-! ## Teardown -/

theorem setup_no_teardown (t : List Call) (h : ∀ c ∈ t, c.isSetup = true) :
    Call.managerStop ∉ t ∧ (∀ stream, Call.free stream ∉ t) ∧
      ∀ camera, Call.release camera ∉ t :=
  ⟨fun hm => absurd (h _ hm) (by simp [Call.isSetup]),
    fun _ hm => absurd (h _ hm) (by simp [Call.isSetup]),
    fun _ hm => absurd (h _ hm) (by simp [Call.isSetup])⟩

/-- C10: explicit teardown happens on the no-camera path and on the success
path only.  A run that returns without a camera has called the manager's
stop; a run that returns 0 ends with `Camera::stop`, the allocator's `free`,
`release` and the manager's stop.  A run that has a camera and returns a
value other than 0 (one that fails in `allocate`, `createRequest` or
`addBuffer`) has started the manager but calls neither the manager's stop,
nor `free`, nor `release`; when its diagnostic is that of `createRequest` or
`addBuffer`, `allocate` had been called with success for every entry of the
configuration and the stream of entry 0 has buffers. -/
theorem main_teardown (lib : Library) (v : Int) (w : World)
    (hmain : main lib = some (v, w)) :
    (lib.cameras = [] →
      v = EXIT_FAILURE ∧ w.trace = [Call.managerStart, Call.cameras, Call.managerStop]) ∧
    (v = 0 →
      ∃ (camera : Camera) (stream : Stream),
        [Call.stop camera, Call.free stream, Call.release camera, Call.managerStop] <:+
          w.trace) ∧
    (lib.cameras ≠ [] → v ≠ 0 →
      Call.managerStart ∈ w.trace ∧ Call.managerStop ∉ w.trace ∧
      (∀ stream, Call.free stream ∉ w.trace) ∧ (∀ camera, Call.release camera ∉ w.trace) ∧
      (w.cerr.text = "Can't allocate buffers\n" ∨
        ((w.cerr.text = "Can't create request\n" ∨
            w.cerr.text = "Can't set buffer for request\n") ∧
          ∃ (camera : Camera) (streamConfig : StreamConfiguration)
              (others : List StreamConfiguration),
            lib.setup = some (camera, streamConfig, others) ∧
            (∀ cfg ∈ streamConfig :: others,
              0 ≤ lib.allocate cfg.stream ∧ Call.allocate cfg.stream ∈ w.trace) ∧
            lib.buffers streamConfig.stream ≠ []))) := by
  rcases main_defined lib v w hmain with hc | ⟨cam, streamConfig, others, hne, hs⟩
  · rw [main_no_camera lib hc] at hmain
    cases hmain
    exact ⟨fun _ => ⟨rfl, rfl⟩, fun h0 => absurd h0 (by decide), fun h => absurd hc h⟩
  · rcases main_cases lib cam streamConfig others hs with
      ⟨w', pre, c, post, h1, h2, h3, h4, h5, h6⟩ |
      ⟨hall, ⟨v', w', j', b', rs, l, h1, h2, h3, h4, h5, h6⟩ | ⟨rs, w', h1, h2, h3, h4, _⟩⟩
    · rw [h1] at hmain
      cases hmain
      have hset : ∀ c ∈ w.trace, c.isSetup = true := by
        rw [h5]
        exact setup_append _ _ (prologue_setup cam) (allocations_setup _)
      obtain ⟨n1, n2, n3⟩ := setup_no_teardown _ hset
      refine ⟨fun h => absurd h hne, fun h0 => absurd h0 (by decide), fun _ _ =>
        ⟨?_, n1, n2, n3, Or.inl h6⟩⟩
      rw [h5]
      simp [prologue]
    · rw [h1] at hmain
      cases hmain
      have hl : ∀ c ∈ l, c.isSetup = true := by
        rcases h6 with ⟨_, _, c3, _⟩ | ⟨r, _, _, _, c4, _⟩
        · subst c3
          intro c hc
          rcases List.mem_singleton.1 hc with rfl
          rfl
        · subst c4
          intro c hc
          simp only [List.mem_cons, List.mem_singleton, List.not_mem_nil, or_false] at hc
          rcases hc with rfl | rfl <;> rfl
      have hset : ∀ c ∈ w.trace, c.isSetup = true := by
        rw [h5]
        exact failure_trace_setup _ _ _ _ _ l hl
      obtain ⟨n1, n2, n3⟩ := setup_no_teardown _ hset
      have hv : v ≠ 0 := by
        rcases h6 with ⟨_, c2, _⟩ | ⟨r, _, c2, c3, _⟩
        · rw [c2]; decide
        · omega
      have hdiag : w.cerr.text = "Can't create request\n" ∨
          w.cerr.text = "Can't set buffer for request\n" := by
        rcases h6 with ⟨_, _, _, c4⟩ | ⟨r, _, _, _, _, c5⟩
        · exact Or.inl c4
        · exact Or.inr c5
      refine ⟨fun h => absurd h hne, fun h0 => absurd h0 hv, fun _ _ =>
        ⟨?_, n1, n2, n3, Or.inr ⟨hdiag, cam, streamConfig, others, hs, ?_, ?_⟩⟩⟩
      · rw [h5]
        simp [prologue]
      · intro cfg hcfg
        refine ⟨hall cfg hcfg, ?_⟩
        rw [h5]
        have : Call.allocate cfg.stream ∈ allocations (streamConfig :: others) :=
          List.mem_map.2 ⟨cfg, hcfg, rfl⟩
        simp only [List.mem_append]
        exact Or.inl (Or.inl (Or.inr this))
      · intro hnil
        rw [hnil] at h2
        simp at h2
    · rw [h1] at hmain
      cases hmain
      refine ⟨fun h => absurd h hne, fun _ => ⟨cam, streamConfig.stream, ?_⟩,
        fun _ hv => absurd rfl hv⟩
      rw [h4]
      exact ⟨prologue cam ++ allocations (streamConfig :: others) ++
        bindings cam streamConfig.stream rs (lib.buffers streamConfig.stream) ++
        [Call.connect cam, Call.start cam] ++
        List.map (fun r => Call.queueRequest cam r) rs ++ [Call.sleep 3000],
        by simp [epilogue]⟩

theorem main_teardown_witness :
    main nullRequestLibrary = some (-ENOMEM, nullRequestRun) ∧
      nullRequestLibrary.cameras ≠ [] ∧ -ENOMEM ≠ 0 ∧
      Call.managerStart ∈ nullRequestRun.trace ∧ Call.managerStop ∉ nullRequestRun.trace ∧
      (∀ stream, Call.free stream ∉ nullRequestRun.trace) ∧
      (∀ camera, Call.release camera ∉ nullRequestRun.trace) ∧
      (nullRequestRun.cerr.text = "Can't allocate buffers\n" ∨
        ((nullRequestRun.cerr.text = "Can't create request\n" ∨
            nullRequestRun.cerr.text = "Can't set buffer for request\n") ∧
          ∃ (camera : Camera) (streamConfig : StreamConfiguration)
              (others : List StreamConfiguration),
            nullRequestLibrary.setup = some (camera, streamConfig, others) ∧
            (∀ cfg ∈ streamConfig :: others,
              0 ≤ nullRequestLibrary.allocate cfg.stream ∧
                Call.allocate cfg.stream ∈ nullRequestRun.trace) ∧
            nullRequestLibrary.buffers streamConfig.stream ≠ [])) :=
  ⟨by decide, by decide, by decide,
    (main_teardown nullRequestLibrary (-ENOMEM) nullRequestRun (by decide)).2.2
      (by decide) (by decide)⟩

end SimpleCam
